import Mathlib

/-!
Verification of the layered BSDF core (microfacet sheen layer over a substrate,
thin dielectric slab) against its natural-language specification.

The scalar type `FloatQ` is an exact model of the IEEE-754 scalars the source
uses: a rational number, plus the special values `+inf`, `-inf` and `nan`.
Arithmetic on finite values is exact (the source's arithmetic is treated as
exact real arithmetic, as usual for a shallow embedding); the special values
follow the IEEE rules for the operations the source performs (`1/0 = +inf`,
`0 * inf = nan`, comparisons with `nan` are false, ...).  This lets statements
about division guards, delta-distribution pdfs (`inf`) and non-finite results
be made exactly.
-/

inductive FloatQ where
  | fin (q : ℚ)
  | pinf
  | ninf
  | nan
deriving DecidableEq, Repr

/-- Embed a rational literal as a finite scalar. -/
@[reducible] def FQ (q : ℚ) : FloatQ := FloatQ.fin q

namespace FloatQ

/-- IEEE addition on exact extended rationals. -/
def add : FloatQ → FloatQ → FloatQ
  | nan, _ => nan
  | _, nan => nan
  | pinf, ninf => nan
  | ninf, pinf => nan
  | pinf, _ => pinf
  | _, pinf => pinf
  | ninf, _ => ninf
  | _, ninf => ninf
  | fin a, fin b => fin (a + b)

/-- IEEE negation. -/
def neg : FloatQ → FloatQ
  | fin a => fin (-a)
  | pinf => ninf
  | ninf => pinf
  | nan => nan

/-- IEEE subtraction. -/
def sub (x y : FloatQ) : FloatQ := add x (neg y)

/-- IEEE multiplication on exact extended rationals (`0 * inf = nan`). -/
def mul : FloatQ → FloatQ → FloatQ
  | nan, _ => nan
  | _, nan => nan
  | fin a, fin b => fin (a * b)
  | fin a, pinf => if 0 < a then pinf else if a < 0 then ninf else nan
  | fin a, ninf => if 0 < a then ninf else if a < 0 then pinf else nan
  | pinf, fin b => if 0 < b then pinf else if b < 0 then ninf else nan
  | ninf, fin b => if 0 < b then ninf else if b < 0 then pinf else nan
  | pinf, pinf => pinf
  | pinf, ninf => ninf
  | ninf, pinf => ninf
  | ninf, ninf => pinf

/-- Reciprocal, as the source's `rcp` with exact arithmetic: `rcp 0 = +inf`
(IEEE division of 1 by +0), `rcp (+-inf) = 0`. -/
def rcp : FloatQ → FloatQ
  | fin a => if a = 0 then pinf else fin a⁻¹
  | pinf => fin 0
  | ninf => fin 0
  | nan => nan

/-- IEEE `<=` comparison (false whenever an operand is `nan`). -/
def leb : FloatQ → FloatQ → Bool
  | nan, _ => false
  | _, nan => false
  | ninf, _ => true
  | _, pinf => true
  | pinf, _ => false
  | fin _, ninf => false
  | fin a, fin b => decide (a ≤ b)

/-- IEEE `<` comparison (false whenever an operand is `nan`). -/
def ltb : FloatQ → FloatQ → Bool
  | nan, _ => false
  | _, nan => false
  | _, ninf => false
  | ninf, _ => true
  | pinf, _ => false
  | fin _, pinf => true
  | fin a, fin b => decide (a < b)

/-- `max(a, b)` as the source's branchy max: `b` if `a < b` else `a`. -/
def fmax (x y : FloatQ) : FloatQ := if ltb x y then y else x

/-- `min(a, b)` as the source's branchy min: `b` if `b < a` else `a`. -/
def fmin (x y : FloatQ) : FloatQ := if ltb y x then y else x

/-- Absolute value. -/
def fabs : FloatQ → FloatQ
  | fin a => fin |a|
  | pinf => pinf
  | ninf => pinf
  | nan => nan

/-- A scalar is finite iff it is neither infinite nor `nan`. -/
def isFinite : FloatQ → Bool
  | fin _ => true
  | _ => false

instance : Add FloatQ := ⟨add⟩
instance : Mul FloatQ := ⟨mul⟩
instance : Neg FloatQ := ⟨neg⟩
instance : Sub FloatQ := ⟨sub⟩

end FloatQ

/-- 3-component vector of scalars (the source's `vec3f`). -/
structure Vec3 where
  x : FloatQ
  y : FloatQ
  z : FloatQ
deriving DecidableEq, Repr

namespace Vec3

/-- Componentwise sum. -/
def add (a b : Vec3) : Vec3 := ⟨a.x + b.x, a.y + b.y, a.z + b.z⟩

/-- Vector times scalar, as in the source's `v * c`. -/
def smul (v : Vec3) (c : FloatQ) : Vec3 := ⟨v.x * c, v.y * c, v.z * c⟩

/-- Componentwise negation (the source's `neg`). -/
def negV (v : Vec3) : Vec3 := ⟨FloatQ.neg v.x, FloatQ.neg v.y, FloatQ.neg v.z⟩

/-- Dot product. -/
def dot (a b : Vec3) : FloatQ := a.x * b.x + a.y * b.y + a.z * b.z

/-- Apply a scalar function componentwise (used for `expf` on a vector). -/
def map (f : FloatQ → FloatQ) (v : Vec3) : Vec3 := ⟨f v.x, f v.y, f v.z⟩

/-- The source's `make_vec3f(c)`: all three components equal. -/
def const (c : FloatQ) : Vec3 := ⟨c, c, c⟩

/-- The source's `reduce_max` on a `vec3f`. -/
def reduceMax (v : Vec3) : FloatQ := FloatQ.fmax (FloatQ.fmax v.x v.y) v.z

/-- All three components are finite. -/
def allFinite (v : Vec3) : Bool :=
  v.x.isFinite && v.y.isFinite && v.z.isFinite

end Vec3

/-- 2D random sample (the source's `vec2f s`). -/
structure Vec2 where
  x : FloatQ
  y : FloatQ
deriving DecidableEq, Repr

/-- BSDF lobe-type bitmask values.  Modelled from the spec: the type flags are
a bitmask of {diffuse|glossy|specular} x {reflection|transmission}; the
numeric values are the ones of the source's `BSDF.ih` (not under `src/`). -/
def BSDF_DIFFUSE_REFLECTION : Nat := 1

/-- Glossy reflection bit. -/
def BSDF_GLOSSY_REFLECTION : Nat := 2

/-- Specular reflection bit. -/
def BSDF_SPECULAR_REFLECTION : Nat := 4

/-- Diffuse transmission bit. -/
def BSDF_DIFFUSE_TRANSMISSION : Nat := 8

/-- Glossy transmission bit. -/
def BSDF_GLOSSY_TRANSMISSION : Nat := 16

/-- Specular transmission bit. -/
def BSDF_SPECULAR_TRANSMISSION : Nat := 32

/-- Union of the two specular bits. -/
def BSDF_SPECULAR : Nat := BSDF_SPECULAR_REFLECTION + BSDF_SPECULAR_TRANSMISSION

/-- Result of `eval`: spectral value and probability density. -/
structure BSDF_EvalRes where
  value : Vec3
  pdf : FloatQ
deriving DecidableEq, Repr

/-- Modelled from the spec: the zero `EvalResult` sentinel
(`make_BSDF_EvalRes_zero` of `BSDF.ih`, not under `src/`): zero value, zero
pdf. -/
def make_BSDF_EvalRes_zero : BSDF_EvalRes :=
  { value := Vec3.const (FQ 0), pdf := FQ 0 }

/-- Result of `sample`: sampled direction, lobe-type bitmask, weight, pdf. -/
structure BSDF_SampleRes where
  wi : Vec3
  type : Nat
  weight : Vec3
  pdf : FloatQ
deriving DecidableEq, Repr

/-- Modelled from the spec: the void `SampleResult` sentinel
(`make_BSDF_SampleRes_zero` of `BSDF.ih`, not under `src/`): a sample whose
weight's maximum channel is not positive (all fields zero). -/
def make_BSDF_SampleRes_zero : BSDF_SampleRes :=
  { wi := Vec3.const (FQ 0), type := 0, weight := Vec3.const (FQ 0), pdf := FQ 0 }

/-- A substrate BSDF, as the capability interface the layering combinator
consumes: an `eval` and a `sample` function (the source's function-pointer
dispatch `f->eval` / `f->sample` through `foreach_unique`, which per lane is a
direct call). -/
structure BSDFI where
  eval : Vec3 → Vec3 → BSDF_EvalRes
  sample : Vec3 → Vec2 → FloatQ → BSDF_SampleRes

/-- Modelled from the spec: the sheen microfacet distribution
(`SheenDistribution.ih`, not under `src/`), kept abstract as its two closed
forms: the normal distribution `D` at `cosThetaH` (`eval`) and the joint
shadowing-masking `G2` at `(cosThetaO, cosThetaI, cosThetaOH, cosThetaIH)`
(`evalG2`). -/
structure SheenDistribution where
  d : FloatQ → FloatQ
  g2 : FloatQ → FloatQ → FloatQ → FloatQ → FloatQ

/-- Modelled from the spec: the math helpers used by the BSDF core that are
declared outside `src/` (`MicrofacetAlbedoTables.ih`, `sampling.ih`,
`vec.ih`, `Dielectric.ih`), kept abstract:
`albedoE cosTheta roughness` is `MicrofacetSheenAlbedoTable_eval`, the
directional-albedo lookup; `uniformPdf` is `uniformSampleHemispherePDF()`,
the uniform-hemisphere density; `sampleHemi` is `uniformSampleHemisphere`;
`normalizeV` is `normalize`; `reflectV wo N cosThetaO` is `reflect`, the
mirror-reflection direction; `fresnelDE cosThetaO eta` is
`fresnelDielectricEx`, returning the Fresnel reflectance `F` and the positive
transmitted cosine `cosThetaT`; `expE` is the scalar `expf`, applied
componentwise to a vector. -/
structure MathEnv where
  albedoE : FloatQ → FloatQ → FloatQ
  uniformPdf : FloatQ
  sampleHemi : Vec2 → Vec3
  normalizeV : Vec3 → Vec3
  reflectV : Vec3 → Vec3 → FloatQ → Vec3
  fresnelDE : FloatQ → FloatQ → FloatQ × FloatQ
  expE : FloatQ → FloatQ

/-- The `MicrofacetSheenLayer` node: shading-frame normal `frameN`
(`getN(super)`) and frame application `frameMul` (`getFrame(super) * v`),
substrate reference, tint `R`, microfacet distribution, roughness, blend
weight. -/
structure MicrofacetSheenLayer where
  frameN : Vec3
  frameMul : Vec3 → Vec3
  substrate : BSDFI
  R : Vec3
  microfacet : SheenDistribution
  roughness : FloatQ
  weight : FloatQ

/-- `MicrofacetSheenLayer_eval` (SceneGraph.h lines 119-171), translated
statement by statement. -/
def MicrofacetSheenLayer_eval (env : MathEnv) (self : MicrofacetSheenLayer)
    (wo wi : Vec3) : BSDF_EvalRes :=
  let cosThetaO := Vec3.dot wo self.frameN
  if FloatQ.leb cosThetaO (FQ 0) then make_BSDF_EvalRes_zero
  else
    let cosThetaI := Vec3.dot wi self.frameN
    -- Evaluate the substrate
    let substrate0 := self.substrate.eval wo wi
    -- Energy conservation
    let Ro := env.albedoE cosThetaO self.roughness * self.weight
    let Ri := env.albedoE (FloatQ.fabs cosThetaI) self.roughness * self.weight
    let T := FloatQ.fmin (FQ 1 - Ro) (FQ 1 - Ri)
    let substrate : BSDF_EvalRes :=
      { substrate0 with value := substrate0.value.smul T }
    let coatPickProb := Ro
    let substratePickProb := FQ 1 - coatPickProb
    if FloatQ.ltb (FQ 0) cosThetaI then
      -- Compute the microfacet normal
      let wh := env.normalizeV (Vec3.add wo wi)
      let cosThetaH := Vec3.dot wh self.frameN
      let cosThetaOH := Vec3.dot wo wh
      let cosThetaIH := Vec3.dot wi wh
      -- Evaluate the coating reflection
      let D := self.microfacet.d cosThetaH
      let G := self.microfacet.g2 cosThetaO cosThetaI cosThetaOH cosThetaIH
      let coatPdf := env.uniformPdf
      let coatValue := self.R.smul (D * G * FloatQ.rcp (FQ 4 * cosThetaO) * self.weight)
      -- Compute the total reflection
      { pdf := coatPickProb * coatPdf + substratePickProb * substrate.pdf,
        value := Vec3.add coatValue substrate.value }
    else
      -- Return the substrate transmission
      { substrate with pdf := substrate.pdf * substratePickProb }

/-- The common tail of `MicrofacetSheenLayer_sample` (SceneGraph.h lines
214-255): everything after the coat/substrate pick, given the pick
probability `Ro`, the partial sample `res` (direction and lobe type already
set) and the substrate's `(value, pdf)` pair. -/
def MicrofacetSheenLayer_sampleTail (env : MathEnv) (self : MicrofacetSheenLayer)
    (wo : Vec3) (cosThetaO Ro : FloatQ) (res : BSDF_SampleRes)
    (substrate : BSDF_EvalRes) : BSDF_SampleRes :=
  let coatPickProb := Ro
  let substratePickProb := FQ 1 - coatPickProb
  let cosThetaI := Vec3.dot res.wi self.frameN
  -- Energy conservation
  let Ri := env.albedoE (FloatQ.fabs cosThetaI) self.roughness * self.weight
  let T := FloatQ.fmin (FQ 1 - Ro) (FQ 1 - Ri)
  let substrateValue := substrate.value.smul T
  if (res.type &&& BSDF_SPECULAR) ≠ 0 then
    -- Sampled a delta distribution: no coating evaluation needed
    { res with weight := substrateValue.smul (FloatQ.rcp substratePickProb) }
  else if FloatQ.leb cosThetaI (FQ 0) then
    -- Sampled transmission: return the substrate transmission
    let pdf2 := substratePickProb * substrate.pdf
    { res with pdf := pdf2, weight := substrateValue.smul (FloatQ.rcp pdf2) }
  else
    -- Compute the microfacet normal
    let wh := env.normalizeV (Vec3.add wo res.wi)
    let cosThetaH := Vec3.dot wh self.frameN
    let cosThetaOH := Vec3.dot wo wh
    let cosThetaIH := Vec3.dot res.wi wh
    -- Evaluate the coating reflection
    let D := self.microfacet.d cosThetaH
    let G := self.microfacet.g2 cosThetaO cosThetaI cosThetaOH cosThetaIH
    let coatPdf := env.uniformPdf
    let coatValue := self.R.smul (D * G * FloatQ.rcp (FQ 4 * cosThetaO) * self.weight)
    -- Compute the total reflection
    let pdf2 := coatPickProb * coatPdf + substratePickProb * substrate.pdf
    { res with pdf := pdf2,
               weight := (Vec3.add coatValue substrateValue).smul (FloatQ.rcp pdf2) }

/-- `MicrofacetSheenLayer_sample` (SceneGraph.h lines 173-255), translated
statement by statement; the two pick branches feed the common tail
`MicrofacetSheenLayer_sampleTail`.  In the coat branch the source leaves
`res.weight` and `res.pdf` uninitialized (they are always overwritten in the
tail before being returned); the embedding fills them with zeros. -/
def MicrofacetSheenLayer_sample (env : MathEnv) (self : MicrofacetSheenLayer)
    (wo : Vec3) (s : Vec2) (ss : FloatQ) : BSDF_SampleRes :=
  let cosThetaO := Vec3.dot wo self.frameN
  if FloatQ.leb cosThetaO (FQ 0) then make_BSDF_SampleRes_zero
  else
    -- Energy conservation
    let Ro := env.albedoE cosThetaO self.roughness * self.weight
    let coatPickProb := Ro
    let substratePickProb := FQ 1 - coatPickProb
    if FloatQ.ltb ss coatPickProb then
      -- Sample the coating reflection
      let res : BSDF_SampleRes :=
        { wi := self.frameMul (env.sampleHemi s),
          type := BSDF_DIFFUSE_REFLECTION,
          weight := Vec3.const (FQ 0), pdf := FQ 0 }
      -- Evaluate the substrate
      let substrate := self.substrate.eval wo res.wi
      MicrofacetSheenLayer_sampleTail env self wo cosThetaO Ro res substrate
    else
      -- Sample the substrate (reallocate sample)
      let ss1 := (ss - coatPickProb) * FloatQ.rcp substratePickProb
      let res := self.substrate.sample wo s ss1
      if FloatQ.leb res.weight.reduceMax (FQ 0) then res
      else
        -- Correctly handle delta distributions
        let substrate : BSDF_EvalRes :=
          { pdf := res.pdf,
            value := res.weight.smul
              (if (res.type &&& BSDF_SPECULAR) ≠ 0 then FQ 1 else res.pdf) }
        MicrofacetSheenLayer_sampleTail env self wo cosThetaO Ro res substrate

/-- The `ThinDielectric` node: frame normal, relative index of refraction,
attenuation coefficient. -/
structure ThinDielectric where
  frameN : Vec3
  eta : FloatQ
  attenuation : Vec3

/-- `ThinDielectric_eval` (SceneGraph.h lines 324-328): always the zero
sentinel. -/
def ThinDielectric_eval (self : ThinDielectric) (wo wi : Vec3) : BSDF_EvalRes :=
  make_BSDF_EvalRes_zero

/-- `ThinDielectric_sample` (SceneGraph.h lines 330-365), translated
statement by statement. -/
def ThinDielectric_sample (env : MathEnv) (self : ThinDielectric)
    (wo : Vec3) (s : Vec2) (ss : FloatQ) : BSDF_SampleRes :=
  let cosThetaO := FloatQ.fmax (Vec3.dot wo self.frameN) (FQ 0)
  -- Fresnel term
  let fr := env.fresnelDE cosThetaO self.eta
  let F := fr.1
  let cosThetaT := fr.2
  -- Sample the reflection or the transmission
  if FloatQ.leb ss F then
    -- Reflection
    { wi := env.reflectV wo self.frameN cosThetaO,
      type := BSDF_SPECULAR_REFLECTION,
      weight := Vec3.const (FQ 1),
      pdf := FloatQ.pinf }
  else
    -- Transmission: attenuation for crossing the slab once
    let len := FloatQ.rcp cosThetaT
    let A := (self.attenuation.smul len).map env.expE
    { wi := wo.negV,
      type := BSDF_SPECULAR_TRANSMISSION,
      weight := A,
      pdf := FloatQ.pinf }

/-!
Concrete instances used by the witnesses and counterexamples below.
-/

/-- The upward unit normal `(0, 0, 1)`. -/
def nUp : Vec3 := ⟨FQ 0, FQ 0, FQ 1⟩

/-- An outgoing direction straight along the normal. -/
def woUp : Vec3 := ⟨FQ 0, FQ 0, FQ 1⟩

/-- An outgoing direction straight below the horizon (`dot` with `nUp` is `-1`). -/
def woDown : Vec3 := ⟨FQ 0, FQ 0, FQ (-1)⟩

/-- An incoming direction below the horizon. -/
def wiDown : Vec3 := ⟨FQ 0, FQ 0, FQ (-1)⟩

/-- A concrete 2D random sample. -/
def sW : Vec2 := ⟨FQ 0, FQ 0⟩

/-- A substrate that always returns the zero / void sentinels. -/
def substrateZero : BSDFI :=
  { eval := fun _ _ => make_BSDF_EvalRes_zero,
    sample := fun _ _ _ => make_BSDF_SampleRes_zero }

/-- A substrate with a constant continuous eval and a constant continuous
transmissive sample (used to exercise the transmissive exits). -/
def substrateTrans : BSDFI :=
  { eval := fun _ _ => { value := Vec3.const (FQ (1/2)), pdf := FQ (1/2) },
    sample := fun _ _ _ =>
      { wi := ⟨FQ 0, FQ 0, FQ (-1)⟩, type := BSDF_DIFFUSE_TRANSMISSION,
        weight := Vec3.const (FQ 1), pdf := FQ (1/2) } }

/-- A constant-one microfacet distribution. -/
def sheenDistOne : SheenDistribution :=
  { d := fun _ => FQ 1, g2 := fun _ _ _ _ => FQ 1 }

/-- A fully concrete math environment: constant `1/2` albedo table, unit
hemisphere pdf, hemisphere sampler returning the zenith, identity normalize,
a reflect returning its first argument, Fresnel `(1/2, 1)`, `exp = 1`. -/
def envHalf : MathEnv :=
  { albedoE := fun _ _ => FQ (1/2),
    uniformPdf := FQ 1,
    sampleHemi := fun _ => ⟨FQ 0, FQ 0, FQ 1⟩,
    normalizeV := fun v => v,
    reflectV := fun w _ _ => w,
    fresnelDE := fun _ _ => (FQ (1/2), FQ 1),
    expE := fun _ => FQ 1 }

/-- Same as `envHalf` but with an identically zero albedo table (still within
the spec's `[0, 1]` range). -/
def envZeroTable : MathEnv :=
  { envHalf with albedoE := fun _ _ => FQ 0 }

/-- A concrete thin dielectric node. -/
def tdW : ThinDielectric :=
  { frameN := nUp, eta := FQ (3/2), attenuation := Vec3.const (FQ 0) }

/-- A concrete sheen layer over the zero substrate, blend weight 1. -/
def sheenW : MicrofacetSheenLayer :=
  { frameN := nUp, frameMul := fun v => v, substrate := substrateZero,
    R := Vec3.const (FQ 1), microfacet := sheenDistOne,
    roughness := FQ 0, weight := FQ 1 }

/-- A concrete sheen layer over the transmissive substrate. -/
def sheenTrans : MicrofacetSheenLayer :=
  { sheenW with substrate := substrateTrans }

/-- A concrete sheen layer over the zero substrate with blend weight 0
(for the pass-through witness). -/
def sheenZeroWeight : MicrofacetSheenLayer :=
  { sheenW with substrate := substrateTrans, weight := FQ 0 }

/-- The concrete thin dielectric wrapped as a substrate interface. -/
def substrateTD : BSDFI :=
  { eval := ThinDielectric_eval tdW,
    sample := ThinDielectric_sample envHalf tdW }

/-- A concrete sheen layer whose substrate is the thin dielectric (a purely
specular substrate). -/
def sheenOverTD : MicrofacetSheenLayer :=
  { sheenW with substrate := substrateTD }

/-!
Basic lemmas about the scalar and vector operations.
-/

namespace FloatQ

theorem leb_fin_iff (a b : ℚ) : leb (fin a) (fin b) = true ↔ a ≤ b := by
  simp [leb]

theorem ltb_fin_iff (a b : ℚ) : ltb (fin a) (fin b) = true ↔ a < b := by
  simp [ltb]

theorem ltb_false_of_leb {a b : FloatQ} (h : leb a b = true) : ltb b a = false := by
  cases a <;> cases b <;> simp_all [leb, ltb]

theorem leb_false_of_ltb {a b : FloatQ} (h : ltb a b = true) : leb b a = false := by
  cases a <;> cases b <;> simp_all [leb, ltb]

theorem ltb_of_leb_false {a b : FloatQ} (hn : a ≠ nan) (hb : b ≠ nan)
    (h : leb a b = false) : ltb b a = true := by
  cases a <;> cases b <;> simp_all [leb, ltb]

theorem absurd_leb_ltb {a b : FloatQ} (h1 : leb a b = true) (h2 : ltb b a = true) :
    False := by
  have := ltb_false_of_leb h1
  rw [this] at h2
  exact Bool.false_ne_true h2

theorem mul_commF (a b : FloatQ) : mul a b = mul b a := by
  cases a <;> cases b <;> simp [mul, mul_comm]

theorem zero_addF (x : FloatQ) : add (fin 0) x = x := by
  cases x <;> simp [add]

theorem add_zeroF (x : FloatQ) : add x (fin 0) = x := by
  cases x <;> simp [add]

theorem one_mulF (x : FloatQ) : mul (fin 1) x = x := by
  cases x <;> simp [mul]

theorem mul_oneF (x : FloatQ) : mul x (fin 1) = x := by
  cases x <;> simp [mul]

theorem zero_mulF {x : FloatQ} (h : x.isFinite = true) : mul (fin 0) x = fin 0 := by
  cases x <;> simp_all [mul, isFinite]

theorem mul_zeroF {x : FloatQ} (h : x.isFinite = true) : mul x (fin 0) = fin 0 := by
  cases x <;> simp_all [mul, isFinite]

/-- `(x * q) * q⁻¹ = x` for a nonzero finite scalar `q`, any `x`. -/
theorem mul_fin_mul_inv (x : FloatQ) {q : ℚ} (hq : q ≠ 0) :
    mul (mul x (fin q)) (fin q⁻¹) = x := by
  rcases lt_trichotomy q 0 with h | h | h
  · have hinv : q⁻¹ < 0 := inv_neg''.mpr h
    cases x <;>
      simp_all [mul, not_lt.mpr (le_of_lt h), not_lt.mpr (le_of_lt hinv),
        mul_assoc, mul_inv_cancel_right₀ hq]
  · exact absurd h hq
  · have hinv : 0 < q⁻¹ := inv_pos.mpr h
    cases x <;> simp_all [mul, mul_assoc, mul_inv_cancel_right₀ hq]

theorem rcp_fin {q : ℚ} (hq : q ≠ 0) : rcp (fin q) = fin q⁻¹ := by
  simp [rcp, hq]

/-- A scalar between `0` (inclusive) and `1` (exclusive) is a finite rational
in `[0, 1)`. -/
theorem shape_of_unit {x : FloatQ} (h0 : leb (fin 0) x = true)
    (h1 : ltb x (fin 1) = true) : ∃ q, x = fin q ∧ 0 ≤ q ∧ q < 1 := by
  cases x <;> simp_all [leb, ltb]

theorem fmax_pos {a b : FloatQ} (ha : ltb (fin 0) a = true)
    (hb : ltb (fin 0) b = true) : ltb (fin 0) (fmax a b) = true := by
  unfold fmax
  split <;> assumption

end FloatQ

namespace Vec3

theorem smul_one (v : Vec3) : v.smul (FQ 1) = v := by
  cases v
  simp [smul, FQ, HMul.hMul, instHMul, Mul.mul, FloatQ.mul_oneF]

theorem zero_addV (v : Vec3) : (Vec3.const (FQ 0)).add v = v := by
  cases v
  simp [add, const, FQ, HAdd.hAdd, instHAdd, Add.add, FloatQ.zero_addF]

theorem allFinite_smul_fin {v : Vec3} (h : v.allFinite = true) (q : ℚ) :
    (v.smul (FloatQ.fin q)).allFinite = true := by
  obtain ⟨a, b, c⟩ := v
  simp [allFinite, FloatQ.isFinite, smul] at h ⊢
  obtain ⟨⟨ha, hb⟩, hc⟩ := h
  cases a <;> cases b <;> cases c <;>
    simp_all [FloatQ.isFinite, HMul.hMul, instHMul, Mul.mul, FloatQ.mul]

theorem allFinite_add {a b : Vec3} (ha : a.allFinite = true)
    (hb : b.allFinite = true) : (a.add b).allFinite = true := by
  obtain ⟨a1, a2, a3⟩ := a
  obtain ⟨b1, b2, b3⟩ := b
  simp [allFinite, FloatQ.isFinite, add] at ha hb ⊢
  obtain ⟨⟨ha1, ha2⟩, ha3⟩ := ha
  obtain ⟨⟨hb1, hb2⟩, hb3⟩ := hb
  cases a1 <;> cases b1 <;> cases a2 <;> cases b2 <;> cases a3 <;> cases b3 <;>
    simp_all [FloatQ.isFinite, HAdd.hAdd, instHAdd, Add.add, FloatQ.add]

end Vec3

/-!
Claim theorems.
-/

/-- C4: for every `wo` and random scalar `ss`, `ThinDielectric_sample` reports
`pdf = +inf`; if `ss <= F` (the dielectric Fresnel reflectance at the entry
angle) it returns the mirror-reflection direction tagged specular reflection
with weight `(1,1,1)`; otherwise it returns the negation of `wo` tagged
specular transmission with weight `exp(attenuation * (1/cosThetaT))`. -/
theorem thinDielectric_sample_spec (env : MathEnv) (self : ThinDielectric)
    (wo : Vec3) (s : Vec2) (ss : FloatQ) :
    (ThinDielectric_sample env self wo s ss).pdf = FloatQ.pinf ∧
    (FloatQ.leb ss (env.fresnelDE (FloatQ.fmax (Vec3.dot wo self.frameN) (FQ 0)) self.eta).1 = true →
      ThinDielectric_sample env self wo s ss =
        { wi := env.reflectV wo self.frameN (FloatQ.fmax (Vec3.dot wo self.frameN) (FQ 0)),
          type := BSDF_SPECULAR_REFLECTION,
          weight := Vec3.const (FQ 1),
          pdf := FloatQ.pinf }) ∧
    (FloatQ.leb ss (env.fresnelDE (FloatQ.fmax (Vec3.dot wo self.frameN) (FQ 0)) self.eta).1 = false →
      ThinDielectric_sample env self wo s ss =
        { wi := wo.negV,
          type := BSDF_SPECULAR_TRANSMISSION,
          weight := (self.attenuation.smul
            (FloatQ.rcp (env.fresnelDE (FloatQ.fmax (Vec3.dot wo self.frameN) (FQ 0)) self.eta).2)).map env.expE,
          pdf := FloatQ.pinf }) := by
  rcases Bool.eq_false_or_eq_true
      (FloatQ.leb ss (env.fresnelDE (FloatQ.fmax (Vec3.dot wo self.frameN) (FQ 0)) self.eta).1) with h | h <;>
    refine ⟨?_, ?_, ?_⟩ <;> simp [ThinDielectric_sample, h]

/-- C4 witness: at a concrete input the reflection branch is taken, the pdf is
`+inf` and the lobe is specular reflection. -/
theorem thinDielectric_sample_spec_witness :
    (ThinDielectric_sample envHalf tdW woUp sW (FQ 0)).pdf = FloatQ.pinf ∧
    (ThinDielectric_sample envHalf tdW woUp sW (FQ 0)).type = BSDF_SPECULAR_REFLECTION := by
  have h := thinDielectric_sample_spec envHalf tdW woUp sW (FQ 0)
  refine ⟨h.1, ?_⟩
  rw [h.2.1 (by with_unfolding_all decide)]

/-- C10: `ThinDielectric_sample` never returns the void sentinel (its weight's
maximum channel is positive in both branches, assuming `exp` is positive), for
every `wo` — including `wo` at or below the horizon, where `cosThetaO` is
clamped to `0` instead of rejecting. -/
theorem thinDielectric_sample_never_void (env : MathEnv) (self : ThinDielectric)
    (wo : Vec3) (s : Vec2) (ss : FloatQ)
    (hexp : ∀ x, FloatQ.ltb (FQ 0) (env.expE x) = true) :
    FloatQ.ltb (FQ 0) ((ThinDielectric_sample env self wo s ss).weight.reduceMax) = true ∧
    ThinDielectric_sample env self wo s ss ≠ make_BSDF_SampleRes_zero := by
  have hp : (ThinDielectric_sample env self wo s ss).pdf = FloatQ.pinf := by
    rcases Bool.eq_false_or_eq_true
        (FloatQ.leb ss (env.fresnelDE (FloatQ.fmax (Vec3.dot wo self.frameN) (FQ 0)) self.eta).1) with h | h <;>
      simp [ThinDielectric_sample, h]
  constructor
  · rcases Bool.eq_false_or_eq_true
        (FloatQ.leb ss (env.fresnelDE (FloatQ.fmax (Vec3.dot wo self.frameN) (FQ 0)) self.eta).1) with h | h
    · simp [ThinDielectric_sample, h, Vec3.const, Vec3.reduceMax]
      with_unfolding_all decide
    · simp [ThinDielectric_sample, h, Vec3.map, Vec3.reduceMax]
      exact FloatQ.fmax_pos (FloatQ.fmax_pos (hexp _) (hexp _)) (hexp _)
  · intro h
    rw [h] at hp
    exact absurd hp (by with_unfolding_all decide)

/-- C10 witness: at a concrete input the sample has positive maximum weight
and is not the void sentinel. -/
theorem thinDielectric_sample_never_void_witness :
    FloatQ.ltb (FQ 0) ((ThinDielectric_sample envHalf tdW woDown sW (FQ (3/4))).weight.reduceMax) = true ∧
    ThinDielectric_sample envHalf tdW woDown sW (FQ (3/4)) ≠ make_BSDF_SampleRes_zero :=
  thinDielectric_sample_never_void envHalf tdW woDown sW (FQ (3/4))
    (fun _ => by with_unfolding_all rfl)

/-- C1 counterexample: with `wo` below the horizon (`dot(wo, N) = -1 <= 0`),
`ThinDielectric_sample` does not return the void sentinel, contradicting the
claim that every model's `sample` does. -/
theorem horizon_rejection_cex :
    FloatQ.leb (Vec3.dot woDown tdW.frameN) (FQ 0) = true ∧
    ThinDielectric_sample envHalf tdW woDown sW (FQ 0) ≠ make_BSDF_SampleRes_zero := by
  constructor
  · with_unfolding_all rfl
  · with_unfolding_all decide

/-- C1 (amended): with `dot(wo, N) <= 0`, both models' `eval` return the zero
sentinel and the sheen layer's `sample` returns the void sentinel, but
`ThinDielectric_sample` clamps `cosThetaO` to `0` and still returns a normal
(non-void) specular sample. -/
theorem horizon_rejection_amended (env : MathEnv) (selfS : MicrofacetSheenLayer)
    (selfT : ThinDielectric) (wo wi : Vec3) (s : Vec2) (ss : FloatQ)
    (hOS : FloatQ.leb (Vec3.dot wo selfS.frameN) (FQ 0) = true)
    (hOT : FloatQ.leb (Vec3.dot wo selfT.frameN) (FQ 0) = true) :
    MicrofacetSheenLayer_eval env selfS wo wi = make_BSDF_EvalRes_zero ∧
    MicrofacetSheenLayer_sample env selfS wo s ss = make_BSDF_SampleRes_zero ∧
    ThinDielectric_eval selfT wo wi = make_BSDF_EvalRes_zero ∧
    ThinDielectric_sample env selfT wo s ss ≠ make_BSDF_SampleRes_zero := by
  refine ⟨?_, ?_, rfl, ?_⟩
  · simp [MicrofacetSheenLayer_eval, hOS]
  · simp [MicrofacetSheenLayer_sample, hOS]
  · intro h
    have hp : (ThinDielectric_sample env selfT wo s ss).pdf = FloatQ.pinf := by
      rcases Bool.eq_false_or_eq_true
          (FloatQ.leb ss (env.fresnelDE (FloatQ.fmax (Vec3.dot wo selfT.frameN) (FQ 0)) selfT.eta).1) with h' | h' <;>
        simp [ThinDielectric_sample, h']
    rw [h] at hp
    exact absurd hp (by with_unfolding_all decide)

/-- C1 (amended) witness at a concrete below-horizon input. -/
theorem horizon_rejection_amended_witness :
    MicrofacetSheenLayer_eval envHalf sheenW woDown woUp = make_BSDF_EvalRes_zero ∧
    MicrofacetSheenLayer_sample envHalf sheenW woDown sW (FQ 0) = make_BSDF_SampleRes_zero ∧
    ThinDielectric_eval tdW woDown woUp = make_BSDF_EvalRes_zero ∧
    ThinDielectric_sample envHalf tdW woDown sW (FQ 0) ≠ make_BSDF_SampleRes_zero :=
  horizon_rejection_amended envHalf sheenW tdW woDown woUp sW (FQ 0)
    (by with_unfolding_all rfl) (by with_unfolding_all rfl)

/-- C8: in the sheen layer's `sample`, when the substrate branch is taken and
the substrate's sample is void (maximum weight channel at most 0), the
combinator returns the substrate's result unchanged — in particular its output
does not depend on the energy table at `wi`, the coating's microfacet terms,
or any further division. -/
theorem sheen_sample_void_propagation (env : MathEnv) (self : MicrofacetSheenLayer)
    (wo : Vec3) (s : Vec2) (ss : FloatQ)
    (hO : FloatQ.leb (Vec3.dot wo self.frameN) (FQ 0) = false)
    (hpick : FloatQ.ltb ss
      (env.albedoE (Vec3.dot wo self.frameN) self.roughness * self.weight) = false)
    (hvoid : FloatQ.leb ((self.substrate.sample wo s
        ((ss - env.albedoE (Vec3.dot wo self.frameN) self.roughness * self.weight) *
          FloatQ.rcp (FQ 1 - env.albedoE (Vec3.dot wo self.frameN) self.roughness * self.weight))).weight.reduceMax)
      (FQ 0) = true) :
    MicrofacetSheenLayer_sample env self wo s ss =
      self.substrate.sample wo s
        ((ss - env.albedoE (Vec3.dot wo self.frameN) self.roughness * self.weight) *
          FloatQ.rcp (FQ 1 - env.albedoE (Vec3.dot wo self.frameN) self.roughness * self.weight)) := by
  simp [MicrofacetSheenLayer_sample, hO, hpick, hvoid]

/-- C8 witness at a concrete input: the substrate's void sample is passed
through unchanged. -/
theorem sheen_sample_void_propagation_witness :
    MicrofacetSheenLayer_sample envHalf sheenW woUp sW (FQ (3/4)) = make_BSDF_SampleRes_zero := by
  have h := sheen_sample_void_propagation envHalf sheenW woUp sW (FQ (3/4))
    (by with_unfolding_all decide) (by with_unfolding_all decide) (by with_unfolding_all decide)
  exact h.trans (by with_unfolding_all rfl)

/-- C3: for `wo` and `wi` both strictly above the horizon, the sheen layer's
`eval` attenuates the substrate's value by `T = min(1-Ro, 1-Ri)` (with `Ro`,
`Ri` the albedo-table lookups at `cosThetaO` and `|cosThetaI|` scaled by the
blend weight) and returns total value = coat value + attenuated substrate
value, total pdf = `Ro * coatPdf + (1-Ro) * substratePdf`, the coat pdf being
the uniform-hemisphere density. -/
theorem sheen_eval_reflection (env : MathEnv) (self : MicrofacetSheenLayer)
    (wo wi : Vec3)
    (hO : FloatQ.ltb (FQ 0) (Vec3.dot wo self.frameN) = true)
    (hI : FloatQ.ltb (FQ 0) (Vec3.dot wi self.frameN) = true) :
    MicrofacetSheenLayer_eval env self wo wi =
      { pdf := env.albedoE (Vec3.dot wo self.frameN) self.roughness * self.weight * env.uniformPdf +
          (FQ 1 - env.albedoE (Vec3.dot wo self.frameN) self.roughness * self.weight) *
            (self.substrate.eval wo wi).pdf,
        value := Vec3.add
          (self.R.smul
            (self.microfacet.d (Vec3.dot (env.normalizeV (Vec3.add wo wi)) self.frameN) *
              self.microfacet.g2 (Vec3.dot wo self.frameN) (Vec3.dot wi self.frameN)
                (Vec3.dot wo (env.normalizeV (Vec3.add wo wi)))
                (Vec3.dot wi (env.normalizeV (Vec3.add wo wi))) *
              FloatQ.rcp (FQ 4 * Vec3.dot wo self.frameN) * self.weight))
          ((self.substrate.eval wo wi).value.smul
            (FloatQ.fmin
              (FQ 1 - env.albedoE (Vec3.dot wo self.frameN) self.roughness * self.weight)
              (FQ 1 - env.albedoE (FloatQ.fabs (Vec3.dot wi self.frameN)) self.roughness * self.weight))) } := by
  have hO' : FloatQ.leb (Vec3.dot wo self.frameN) (FQ 0) = false := FloatQ.leb_false_of_ltb hO
  simp [MicrofacetSheenLayer_eval, hO', hI]

/-- C3 witness at a concrete input. -/
theorem sheen_eval_reflection_witness :
    (MicrofacetSheenLayer_eval envHalf sheenW woUp woUp).pdf = FQ (1/2) ∧
    (MicrofacetSheenLayer_eval envHalf sheenW woUp woUp).value = Vec3.const (FQ (1/4)) := by
  have h := sheen_eval_reflection envHalf sheenW woUp woUp
    (by with_unfolding_all decide) (by with_unfolding_all decide)
  rw [h]
  constructor <;> with_unfolding_all rfl

/-- C9: when `wi` is at or below the horizon (and `wo` above it), the sheen
layer's `eval` returns only the substrate's contribution: value attenuated by
`T`, pdf scaled by `substratePickProb = 1 - Ro`, with no coat term; and in the
matching transmissive case of `sample` (substrate branch, non-specular sampled
type, sampled direction at or below the horizon) the returned pdf is
`substratePickProb * substratePdf` and the returned weight is the T-attenuated
substrate value divided by that pdf. -/
theorem sheen_transmission_spec (env : MathEnv) (self : MicrofacetSheenLayer)
    (wo wi : Vec3) (s : Vec2) (ss : FloatQ)
    (hO : FloatQ.ltb (FQ 0) (Vec3.dot wo self.frameN) = true) :
    (FloatQ.leb (Vec3.dot wi self.frameN) (FQ 0) = true →
      MicrofacetSheenLayer_eval env self wo wi =
        { value := (self.substrate.eval wo wi).value.smul
            (FloatQ.fmin
              (FQ 1 - env.albedoE (Vec3.dot wo self.frameN) self.roughness * self.weight)
              (FQ 1 - env.albedoE (FloatQ.fabs (Vec3.dot wi self.frameN)) self.roughness * self.weight)),
          pdf := (self.substrate.eval wo wi).pdf *
            (FQ 1 - env.albedoE (Vec3.dot wo self.frameN) self.roughness * self.weight) }) ∧
    (∀ r, r = self.substrate.sample wo s
        ((ss - env.albedoE (Vec3.dot wo self.frameN) self.roughness * self.weight) *
          FloatQ.rcp (FQ 1 - env.albedoE (Vec3.dot wo self.frameN) self.roughness * self.weight)) →
      FloatQ.ltb ss (env.albedoE (Vec3.dot wo self.frameN) self.roughness * self.weight) = false →
      FloatQ.leb r.weight.reduceMax (FQ 0) = false →
      r.type &&& BSDF_SPECULAR = 0 →
      FloatQ.leb (Vec3.dot r.wi self.frameN) (FQ 0) = true →
      MicrofacetSheenLayer_sample env self wo s ss =
        { r with
          pdf := (FQ 1 - env.albedoE (Vec3.dot wo self.frameN) self.roughness * self.weight) * r.pdf,
          weight := ((r.weight.smul r.pdf).smul
              (FloatQ.fmin
                (FQ 1 - env.albedoE (Vec3.dot wo self.frameN) self.roughness * self.weight)
                (FQ 1 - env.albedoE (FloatQ.fabs (Vec3.dot r.wi self.frameN)) self.roughness * self.weight))).smul
            (FloatQ.rcp
              ((FQ 1 - env.albedoE (Vec3.dot wo self.frameN) self.roughness * self.weight) * r.pdf)) }) := by
  have hO' : FloatQ.leb (Vec3.dot wo self.frameN) (FQ 0) = false := FloatQ.leb_false_of_ltb hO
  constructor
  · intro hI
    have hI' : FloatQ.ltb (FQ 0) (Vec3.dot wi self.frameN) = false := FloatQ.ltb_false_of_leb hI
    simp [MicrofacetSheenLayer_eval, hO', hI']
  · intro r hr hpick hvoid hnspec htrans
    subst hr
    simp [MicrofacetSheenLayer_sample, hO', hpick, hvoid,
      MicrofacetSheenLayer_sampleTail, hnspec, htrans]

/-- C9 witness at a concrete input with a transmissive continuous substrate. -/
theorem sheen_transmission_spec_witness :
    (MicrofacetSheenLayer_eval envHalf sheenTrans woUp wiDown).pdf = FQ (1/4) ∧
    (MicrofacetSheenLayer_sample envHalf sheenTrans woUp sW (FQ (3/4))).pdf = FQ (1/4) ∧
    (MicrofacetSheenLayer_sample envHalf sheenTrans woUp sW (FQ (3/4))).weight = Vec3.const (FQ 1) := by
  have h := sheen_transmission_spec envHalf sheenTrans woUp wiDown sW (FQ (3/4))
    (by with_unfolding_all decide)
  refine ⟨?_, ?_, ?_⟩
  · rw [h.1 (by with_unfolding_all decide)]
    with_unfolding_all rfl
  · rw [h.2 _ rfl (by with_unfolding_all decide) (by with_unfolding_all decide)
      (by with_unfolding_all decide) (by with_unfolding_all decide)]
    with_unfolding_all rfl
  · rw [h.2 _ rfl (by with_unfolding_all decide) (by with_unfolding_all decide)
      (by with_unfolding_all decide) (by with_unfolding_all decide)]
    with_unfolding_all rfl

/-!
Auxiliary branch lemmas used by the remaining claims.
-/

theorem sampleTail_type (env : MathEnv) (self : MicrofacetSheenLayer) (wo : Vec3)
    (cosThetaO Ro : FloatQ) (res : BSDF_SampleRes) (substrate : BSDF_EvalRes) :
    (MicrofacetSheenLayer_sampleTail env self wo cosThetaO Ro res substrate).type = res.type := by
  unfold MicrofacetSheenLayer_sampleTail
  by_cases h1 : (res.type &&& BSDF_SPECULAR) ≠ 0 <;>
    rcases Bool.eq_false_or_eq_true (FloatQ.leb (Vec3.dot res.wi self.frameN) (FQ 0)) with h2 | h2 <;>
    simp [h1, h2]

theorem sampleTail_wi (env : MathEnv) (self : MicrofacetSheenLayer) (wo : Vec3)
    (cosThetaO Ro : FloatQ) (res : BSDF_SampleRes) (substrate : BSDF_EvalRes) :
    (MicrofacetSheenLayer_sampleTail env self wo cosThetaO Ro res substrate).wi = res.wi := by
  unfold MicrofacetSheenLayer_sampleTail
  by_cases h1 : (res.type &&& BSDF_SPECULAR) ≠ 0 <;>
    rcases Bool.eq_false_or_eq_true (FloatQ.leb (Vec3.dot res.wi self.frameN) (FQ 0)) with h2 | h2 <;>
    simp [h1, h2]

theorem sampleTail_spec (env : MathEnv) (self : MicrofacetSheenLayer) (wo : Vec3)
    (cosThetaO Ro : FloatQ) (res : BSDF_SampleRes) (substrate : BSDF_EvalRes)
    (hspec : res.type &&& BSDF_SPECULAR ≠ 0) :
    MicrofacetSheenLayer_sampleTail env self wo cosThetaO Ro res substrate =
      { res with
        weight := (substrate.value.smul
            (FloatQ.fmin (FQ 1 - Ro)
              (FQ 1 - env.albedoE (FloatQ.fabs (Vec3.dot res.wi self.frameN)) self.roughness * self.weight))).smul
          (FloatQ.rcp (FQ 1 - Ro)) } := by
  simp [MicrofacetSheenLayer_sampleTail, hspec]

theorem sampleTail_nonspec_trans (env : MathEnv) (self : MicrofacetSheenLayer) (wo : Vec3)
    (cosThetaO Ro : FloatQ) (res : BSDF_SampleRes) (substrate : BSDF_EvalRes)
    (hnspec : res.type &&& BSDF_SPECULAR = 0)
    (hcI : FloatQ.leb (Vec3.dot res.wi self.frameN) (FQ 0) = true) :
    MicrofacetSheenLayer_sampleTail env self wo cosThetaO Ro res substrate =
      { res with
        pdf := (FQ 1 - Ro) * substrate.pdf,
        weight := (substrate.value.smul
            (FloatQ.fmin (FQ 1 - Ro)
              (FQ 1 - env.albedoE (FloatQ.fabs (Vec3.dot res.wi self.frameN)) self.roughness * self.weight))).smul
          (FloatQ.rcp ((FQ 1 - Ro) * substrate.pdf)) } := by
  simp [MicrofacetSheenLayer_sampleTail, hnspec, hcI]

theorem sampleTail_nonspec_refl (env : MathEnv) (self : MicrofacetSheenLayer) (wo : Vec3)
    (cosThetaO Ro : FloatQ) (res : BSDF_SampleRes) (substrate : BSDF_EvalRes)
    (hnspec : res.type &&& BSDF_SPECULAR = 0)
    (hcI : FloatQ.leb (Vec3.dot res.wi self.frameN) (FQ 0) = false) :
    MicrofacetSheenLayer_sampleTail env self wo cosThetaO Ro res substrate =
      { res with
        pdf := Ro * env.uniformPdf + (FQ 1 - Ro) * substrate.pdf,
        weight := (Vec3.add
            (self.R.smul
              (self.microfacet.d (Vec3.dot (env.normalizeV (Vec3.add wo res.wi)) self.frameN) *
                self.microfacet.g2 cosThetaO (Vec3.dot res.wi self.frameN)
                  (Vec3.dot wo (env.normalizeV (Vec3.add wo res.wi)))
                  (Vec3.dot res.wi (env.normalizeV (Vec3.add wo res.wi))) *
                FloatQ.rcp (FQ 4 * cosThetaO) * self.weight))
            (substrate.value.smul
              (FloatQ.fmin (FQ 1 - Ro)
                (FQ 1 - env.albedoE (FloatQ.fabs (Vec3.dot res.wi self.frameN)) self.roughness * self.weight)))).smul
          (FloatQ.rcp (Ro * env.uniformPdf + (FQ 1 - Ro) * substrate.pdf)) } := by
  simp [MicrofacetSheenLayer_sampleTail, hnspec, hcI]

theorem sheenSample_below_horizon (env : MathEnv) (self : MicrofacetSheenLayer)
    (wo : Vec3) (s : Vec2) (ss : FloatQ)
    (hO : FloatQ.leb (Vec3.dot wo self.frameN) (FQ 0) = true) :
    MicrofacetSheenLayer_sample env self wo s ss = make_BSDF_SampleRes_zero := by
  simp [MicrofacetSheenLayer_sample, hO]

theorem sheenSample_coat (env : MathEnv) (self : MicrofacetSheenLayer)
    (wo : Vec3) (s : Vec2) (ss : FloatQ)
    (hO : FloatQ.leb (Vec3.dot wo self.frameN) (FQ 0) = false)
    (hpick : FloatQ.ltb ss
      (env.albedoE (Vec3.dot wo self.frameN) self.roughness * self.weight) = true) :
    MicrofacetSheenLayer_sample env self wo s ss =
      MicrofacetSheenLayer_sampleTail env self wo (Vec3.dot wo self.frameN)
        (env.albedoE (Vec3.dot wo self.frameN) self.roughness * self.weight)
        { wi := self.frameMul (env.sampleHemi s), type := BSDF_DIFFUSE_REFLECTION,
          weight := Vec3.const (FQ 0), pdf := FQ 0 }
        (self.substrate.eval wo (self.frameMul (env.sampleHemi s))) := by
  simp [MicrofacetSheenLayer_sample, hO, hpick]

theorem sheenSample_substrate (env : MathEnv) (self : MicrofacetSheenLayer)
    (wo : Vec3) (s : Vec2) (ss : FloatQ)
    (hO : FloatQ.leb (Vec3.dot wo self.frameN) (FQ 0) = false)
    (hpick : FloatQ.ltb ss
      (env.albedoE (Vec3.dot wo self.frameN) self.roughness * self.weight) = false)
    (hv : FloatQ.leb ((self.substrate.sample wo s
        ((ss - env.albedoE (Vec3.dot wo self.frameN) self.roughness * self.weight) *
          FloatQ.rcp (FQ 1 - env.albedoE (Vec3.dot wo self.frameN) self.roughness * self.weight))).weight.reduceMax)
      (FQ 0) = false) :
    MicrofacetSheenLayer_sample env self wo s ss =
      MicrofacetSheenLayer_sampleTail env self wo (Vec3.dot wo self.frameN)
        (env.albedoE (Vec3.dot wo self.frameN) self.roughness * self.weight)
        (self.substrate.sample wo s
          ((ss - env.albedoE (Vec3.dot wo self.frameN) self.roughness * self.weight) *
            FloatQ.rcp (FQ 1 - env.albedoE (Vec3.dot wo self.frameN) self.roughness * self.weight)))
        { value := (self.substrate.sample wo s
              ((ss - env.albedoE (Vec3.dot wo self.frameN) self.roughness * self.weight) *
                FloatQ.rcp (FQ 1 - env.albedoE (Vec3.dot wo self.frameN) self.roughness * self.weight))).weight.smul
            (if (self.substrate.sample wo s
                ((ss - env.albedoE (Vec3.dot wo self.frameN) self.roughness * self.weight) *
                  FloatQ.rcp (FQ 1 - env.albedoE (Vec3.dot wo self.frameN) self.roughness * self.weight))).type &&&
                BSDF_SPECULAR ≠ 0 then FQ 1
              else (self.substrate.sample wo s
                ((ss - env.albedoE (Vec3.dot wo self.frameN) self.roughness * self.weight) *
                  FloatQ.rcp (FQ 1 - env.albedoE (Vec3.dot wo self.frameN) self.roughness * self.weight))).pdf),
          pdf := (self.substrate.sample wo s
              ((ss - env.albedoE (Vec3.dot wo self.frameN) self.roughness * self.weight) *
                FloatQ.rcp (FQ 1 - env.albedoE (Vec3.dot wo self.frameN) self.roughness * self.weight))).pdf } := by
  simp [MicrofacetSheenLayer_sample, hO, hpick, hv]

theorem sheenEval_above_aux (env : MathEnv) (self : MicrofacetSheenLayer) (wo wi : Vec3)
    (hO : FloatQ.leb (Vec3.dot wo self.frameN) (FQ 0) = false)
    (hI : FloatQ.ltb (FQ 0) (Vec3.dot wi self.frameN) = true) :
    MicrofacetSheenLayer_eval env self wo wi =
      { pdf := env.albedoE (Vec3.dot wo self.frameN) self.roughness * self.weight * env.uniformPdf +
          (FQ 1 - env.albedoE (Vec3.dot wo self.frameN) self.roughness * self.weight) *
            (self.substrate.eval wo wi).pdf,
        value := Vec3.add
          (self.R.smul
            (self.microfacet.d (Vec3.dot (env.normalizeV (Vec3.add wo wi)) self.frameN) *
              self.microfacet.g2 (Vec3.dot wo self.frameN) (Vec3.dot wi self.frameN)
                (Vec3.dot wo (env.normalizeV (Vec3.add wo wi)))
                (Vec3.dot wi (env.normalizeV (Vec3.add wo wi))) *
              FloatQ.rcp (FQ 4 * Vec3.dot wo self.frameN) * self.weight))
          ((self.substrate.eval wo wi).value.smul
            (FloatQ.fmin
              (FQ 1 - env.albedoE (Vec3.dot wo self.frameN) self.roughness * self.weight)
              (FQ 1 - env.albedoE (FloatQ.fabs (Vec3.dot wi self.frameN)) self.roughness * self.weight))) } := by
  simp [MicrofacetSheenLayer_eval, hO, hI]

theorem sheenEval_below_aux (env : MathEnv) (self : MicrofacetSheenLayer) (wo wi : Vec3)
    (hO : FloatQ.leb (Vec3.dot wo self.frameN) (FQ 0) = false)
    (hI : FloatQ.ltb (FQ 0) (Vec3.dot wi self.frameN) = false) :
    MicrofacetSheenLayer_eval env self wo wi =
      { value := (self.substrate.eval wo wi).value.smul
          (FloatQ.fmin
            (FQ 1 - env.albedoE (Vec3.dot wo self.frameN) self.roughness * self.weight)
            (FQ 1 - env.albedoE (FloatQ.fabs (Vec3.dot wi self.frameN)) self.roughness * self.weight)),
        pdf := (self.substrate.eval wo wi).pdf *
          (FQ 1 - env.albedoE (Vec3.dot wo self.frameN) self.roughness * self.weight) } := by
  simp [MicrofacetSheenLayer_eval, hO, hI]

theorem hmul_comm (a b : FloatQ) : a * b = b * a := FloatQ.mul_commF a b

theorem diffuse_not_specular : BSDF_DIFFUSE_REFLECTION &&& BSDF_SPECULAR = 0 := by decide

/-- C2: sample/eval consistency for the sheen layer.  If the substrate's own
sample/eval pair is consistent (its eval at a sampled direction returns the
sampled pdf and `weight * pdf` as value, for non-specular non-void samples),
and the sheen layer's `sample` returns a continuous (non-specular) direction
with positive weight, then `eval` at `(wo, wi)` returns exactly the pdf that
`sample` returned, and eval's value divided by that pdf equals the returned
weight. -/
theorem sheen_sample_eval_consistency (env : MathEnv) (self : MicrofacetSheenLayer)
    (wo : Vec3) (s : Vec2) (ss : FloatQ)
    (hconsist : ∀ s' t,
      (self.substrate.sample wo s' t).type &&& BSDF_SPECULAR = 0 →
      FloatQ.leb (self.substrate.sample wo s' t).weight.reduceMax (FQ 0) = false →
      self.substrate.eval wo (self.substrate.sample wo s' t).wi =
        { value := (self.substrate.sample wo s' t).weight.smul (self.substrate.sample wo s' t).pdf,
          pdf := (self.substrate.sample wo s' t).pdf })
    (hspec : (MicrofacetSheenLayer_sample env self wo s ss).type &&& BSDF_SPECULAR = 0)
    (hw : FloatQ.ltb (FQ 0) (MicrofacetSheenLayer_sample env self wo s ss).weight.reduceMax = true)
    (hnan : Vec3.dot (MicrofacetSheenLayer_sample env self wo s ss).wi self.frameN ≠ FloatQ.nan) :
    (MicrofacetSheenLayer_eval env self wo (MicrofacetSheenLayer_sample env self wo s ss).wi).pdf =
      (MicrofacetSheenLayer_sample env self wo s ss).pdf ∧
    (MicrofacetSheenLayer_eval env self wo (MicrofacetSheenLayer_sample env self wo s ss).wi).value.smul
        (FloatQ.rcp
          (MicrofacetSheenLayer_eval env self wo (MicrofacetSheenLayer_sample env self wo s ss).wi).pdf) =
      (MicrofacetSheenLayer_sample env self wo s ss).weight := by
  rcases Bool.eq_false_or_eq_true (FloatQ.leb (Vec3.dot wo self.frameN) (FQ 0)) with hO | hO
  · rw [sheenSample_below_horizon env self wo s ss hO] at hw
    exact absurd hw (by with_unfolding_all decide)
  rcases Bool.eq_false_or_eq_true
      (FloatQ.ltb ss (env.albedoE (Vec3.dot wo self.frameN) self.roughness * self.weight)) with hpick | hpick
  · -- coat branch
    have hres := sheenSample_coat env self wo s ss hO hpick
    have hwi : (MicrofacetSheenLayer_sample env self wo s ss).wi =
        self.frameMul (env.sampleHemi s) := by
      rw [hres, sampleTail_wi]
    rw [hwi] at hnan
    rcases Bool.eq_false_or_eq_true
        (FloatQ.leb (Vec3.dot (self.frameMul (env.sampleHemi s)) self.frameN) (FQ 0)) with hcI | hcI
    · -- transmissive exit
      have htail := sampleTail_nonspec_trans env self wo (Vec3.dot wo self.frameN)
        (env.albedoE (Vec3.dot wo self.frameN) self.roughness * self.weight)
        { wi := self.frameMul (env.sampleHemi s), type := BSDF_DIFFUSE_REFLECTION,
          weight := Vec3.const (FQ 0), pdf := FQ 0 }
        (self.substrate.eval wo (self.frameMul (env.sampleHemi s)))
        diffuse_not_specular hcI
      have hfinal := hres.trans htail
      have heval := sheenEval_below_aux env self wo (self.frameMul (env.sampleHemi s)) hO
        (FloatQ.ltb_false_of_leb hcI)
      constructor
      · rw [hwi, heval, hfinal]
        simp [hmul_comm ((self.substrate.eval wo (self.frameMul (env.sampleHemi s))).pdf)
          (FQ 1 - env.albedoE (Vec3.dot wo self.frameN) self.roughness * self.weight)]
      · rw [hwi, heval, hfinal]
        simp [hmul_comm ((self.substrate.eval wo (self.frameMul (env.sampleHemi s))).pdf)
          (FQ 1 - env.albedoE (Vec3.dot wo self.frameN) self.roughness * self.weight)]
    · -- reflective continuous exit
      have hI2 := FloatQ.ltb_of_leb_false hnan (by decide) hcI
      have htail := sampleTail_nonspec_refl env self wo (Vec3.dot wo self.frameN)
        (env.albedoE (Vec3.dot wo self.frameN) self.roughness * self.weight)
        { wi := self.frameMul (env.sampleHemi s), type := BSDF_DIFFUSE_REFLECTION,
          weight := Vec3.const (FQ 0), pdf := FQ 0 }
        (self.substrate.eval wo (self.frameMul (env.sampleHemi s)))
        diffuse_not_specular hcI
      have hfinal := hres.trans htail
      have heval := sheenEval_above_aux env self wo (self.frameMul (env.sampleHemi s)) hO hI2
      constructor
      · rw [hwi, heval, hfinal]
      · rw [hwi, heval, hfinal]
  · -- substrate branch
    rcases Bool.eq_false_or_eq_true
        (FloatQ.leb ((self.substrate.sample wo s
          ((ss - env.albedoE (Vec3.dot wo self.frameN) self.roughness * self.weight) *
            FloatQ.rcp (FQ 1 - env.albedoE (Vec3.dot wo self.frameN) self.roughness * self.weight))).weight.reduceMax)
        (FQ 0)) with hv | hv
    · rw [show MicrofacetSheenLayer_sample env self wo s ss =
          self.substrate.sample wo s
            ((ss - env.albedoE (Vec3.dot wo self.frameN) self.roughness * self.weight) *
              FloatQ.rcp (FQ 1 - env.albedoE (Vec3.dot wo self.frameN) self.roughness * self.weight))
          by simp [MicrofacetSheenLayer_sample, hO, hpick, hv]] at hw
      exact (FloatQ.absurd_leb_ltb hv hw).elim
    · have hres := sheenSample_substrate env self wo s ss hO hpick hv
      have hnspec : (self.substrate.sample wo s
          ((ss - env.albedoE (Vec3.dot wo self.frameN) self.roughness * self.weight) *
            FloatQ.rcp (FQ 1 - env.albedoE (Vec3.dot wo self.frameN) self.roughness * self.weight))).type &&&
          BSDF_SPECULAR = 0 := by
        rw [hres, sampleTail_type] at hspec
        exact hspec
      have hwi : (MicrofacetSheenLayer_sample env self wo s ss).wi =
          (self.substrate.sample wo s
            ((ss - env.albedoE (Vec3.dot wo self.frameN) self.roughness * self.weight) *
              FloatQ.rcp (FQ 1 - env.albedoE (Vec3.dot wo self.frameN) self.roughness * self.weight))).wi := by
        rw [hres, sampleTail_wi]
      have hcons := hconsist s
        ((ss - env.albedoE (Vec3.dot wo self.frameN) self.roughness * self.weight) *
          FloatQ.rcp (FQ 1 - env.albedoE (Vec3.dot wo self.frameN) self.roughness * self.weight))
        hnspec hv
      rw [hwi] at hnan
      rcases Bool.eq_false_or_eq_true
          (FloatQ.leb (Vec3.dot (self.substrate.sample wo s
            ((ss - env.albedoE (Vec3.dot wo self.frameN) self.roughness * self.weight) *
              FloatQ.rcp (FQ 1 - env.albedoE (Vec3.dot wo self.frameN) self.roughness * self.weight))).wi
            self.frameN) (FQ 0)) with hcI | hcI
      · -- transmissive exit
        have htail := sampleTail_nonspec_trans env self wo (Vec3.dot wo self.frameN)
          (env.albedoE (Vec3.dot wo self.frameN) self.roughness * self.weight)
          (self.substrate.sample wo s
            ((ss - env.albedoE (Vec3.dot wo self.frameN) self.roughness * self.weight) *
              FloatQ.rcp (FQ 1 - env.albedoE (Vec3.dot wo self.frameN) self.roughness * self.weight)))
          { value := (self.substrate.sample wo s
                ((ss - env.albedoE (Vec3.dot wo self.frameN) self.roughness * self.weight) *
                  FloatQ.rcp (FQ 1 - env.albedoE (Vec3.dot wo self.frameN) self.roughness * self.weight))).weight.smul
              (if (self.substrate.sample wo s
                  ((ss - env.albedoE (Vec3.dot wo self.frameN) self.roughness * self.weight) *
                    FloatQ.rcp (FQ 1 - env.albedoE (Vec3.dot wo self.frameN) self.roughness * self.weight))).type &&&
                  BSDF_SPECULAR ≠ 0 then FQ 1
                else (self.substrate.sample wo s
                  ((ss - env.albedoE (Vec3.dot wo self.frameN) self.roughness * self.weight) *
                    FloatQ.rcp (FQ 1 - env.albedoE (Vec3.dot wo self.frameN) self.roughness * self.weight))).pdf),
            pdf := (self.substrate.sample wo s
                ((ss - env.albedoE (Vec3.dot wo self.frameN) self.roughness * self.weight) *
                  FloatQ.rcp (FQ 1 - env.albedoE (Vec3.dot wo self.frameN) self.roughness * self.weight))).pdf }
          hnspec hcI
        have hfinal := hres.trans htail
        have heval := sheenEval_below_aux env self wo
          (self.substrate.sample wo s
            ((ss - env.albedoE (Vec3.dot wo self.frameN) self.roughness * self.weight) *
              FloatQ.rcp (FQ 1 - env.albedoE (Vec3.dot wo self.frameN) self.roughness * self.weight))).wi
          hO (FloatQ.ltb_false_of_leb hcI)
        rw [hcons] at heval
        constructor
        · rw [hwi, heval, hfinal]
          simp [hnspec, hmul_comm ((self.substrate.sample wo s
            ((ss - env.albedoE (Vec3.dot wo self.frameN) self.roughness * self.weight) *
              FloatQ.rcp (FQ 1 - env.albedoE (Vec3.dot wo self.frameN) self.roughness * self.weight))).pdf)
            (FQ 1 - env.albedoE (Vec3.dot wo self.frameN) self.roughness * self.weight)]
        · rw [hwi, heval, hfinal]
          simp [hnspec, hmul_comm ((self.substrate.sample wo s
            ((ss - env.albedoE (Vec3.dot wo self.frameN) self.roughness * self.weight) *
              FloatQ.rcp (FQ 1 - env.albedoE (Vec3.dot wo self.frameN) self.roughness * self.weight))).pdf)
            (FQ 1 - env.albedoE (Vec3.dot wo self.frameN) self.roughness * self.weight)]
      · -- reflective continuous exit
        have hI2 := FloatQ.ltb_of_leb_false hnan (by decide) hcI
        have htail := sampleTail_nonspec_refl env self wo (Vec3.dot wo self.frameN)
          (env.albedoE (Vec3.dot wo self.frameN) self.roughness * self.weight)
          (self.substrate.sample wo s
            ((ss - env.albedoE (Vec3.dot wo self.frameN) self.roughness * self.weight) *
              FloatQ.rcp (FQ 1 - env.albedoE (Vec3.dot wo self.frameN) self.roughness * self.weight)))
          { value := (self.substrate.sample wo s
                ((ss - env.albedoE (Vec3.dot wo self.frameN) self.roughness * self.weight) *
                  FloatQ.rcp (FQ 1 - env.albedoE (Vec3.dot wo self.frameN) self.roughness * self.weight))).weight.smul
              (if (self.substrate.sample wo s
                  ((ss - env.albedoE (Vec3.dot wo self.frameN) self.roughness * self.weight) *
                    FloatQ.rcp (FQ 1 - env.albedoE (Vec3.dot wo self.frameN) self.roughness * self.weight))).type &&&
                  BSDF_SPECULAR ≠ 0 then FQ 1
                else (self.substrate.sample wo s
                  ((ss - env.albedoE (Vec3.dot wo self.frameN) self.roughness * self.weight) *
                    FloatQ.rcp (FQ 1 - env.albedoE (Vec3.dot wo self.frameN) self.roughness * self.weight))).pdf),
            pdf := (self.substrate.sample wo s
                ((ss - env.albedoE (Vec3.dot wo self.frameN) self.roughness * self.weight) *
                  FloatQ.rcp (FQ 1 - env.albedoE (Vec3.dot wo self.frameN) self.roughness * self.weight))).pdf }
          hnspec hcI
        have hfinal := hres.trans htail
        have heval := sheenEval_above_aux env self wo
          (self.substrate.sample wo s
            ((ss - env.albedoE (Vec3.dot wo self.frameN) self.roughness * self.weight) *
              FloatQ.rcp (FQ 1 - env.albedoE (Vec3.dot wo self.frameN) self.roughness * self.weight))).wi
          hO hI2
        rw [hcons] at heval
        constructor
        · rw [hwi, heval, hfinal]
        · rw [hwi, heval, hfinal]
          simp [hnspec]

/-- C2 witness: at a concrete coat-branch input over the zero substrate, the
mixture pdf returned by `sample` matches `eval`, and eval's value over pdf
equals the returned weight. -/
theorem sheen_sample_eval_consistency_witness :
    (MicrofacetSheenLayer_eval envHalf sheenW woUp
        (MicrofacetSheenLayer_sample envHalf sheenW woUp sW (FQ 0)).wi).pdf =
      (MicrofacetSheenLayer_sample envHalf sheenW woUp sW (FQ 0)).pdf ∧
    (MicrofacetSheenLayer_eval envHalf sheenW woUp
        (MicrofacetSheenLayer_sample envHalf sheenW woUp sW (FQ 0)).wi).value.smul
        (FloatQ.rcp
          (MicrofacetSheenLayer_eval envHalf sheenW woUp
            (MicrofacetSheenLayer_sample envHalf sheenW woUp sW (FQ 0)).wi).pdf) =
      (MicrofacetSheenLayer_sample envHalf sheenW woUp sW (FQ 0)).weight :=
  sheen_sample_eval_consistency envHalf sheenW woUp sW (FQ 0)
    (fun s' t h1 h2 => absurd h2 (by
      show ¬(make_BSDF_SampleRes_zero.weight.reduceMax.leb (FQ 0) = false)
      with_unfolding_all decide))
    (by with_unfolding_all decide)
    (by with_unfolding_all decide)
    (by with_unfolding_all decide)

/-!
Further scalar/vector helper lemmas for the pass-through and finiteness
claims.
-/

theorem hub1 : FQ 1 - FQ 0 = FQ 1 := by with_unfolding_all decide

theorem fmin_one_one : FloatQ.fmin (FQ 1) (FQ 1) = FQ 1 := by with_unfolding_all decide

theorem rcp_one : FloatQ.rcp (FQ 1) = FQ 1 := by with_unfolding_all decide

theorem hzero_mul {x : FloatQ} (h : x.isFinite = true) : FQ 0 * x = FQ 0 :=
  FloatQ.zero_mulF h

theorem hmul_zero {x : FloatQ} (h : x.isFinite = true) : x * FQ 0 = FQ 0 :=
  FloatQ.mul_zeroF h

theorem hone_mul (x : FloatQ) : FQ 1 * x = x := FloatQ.one_mulF x

theorem hmul_one (x : FloatQ) : x * FQ 1 = x := FloatQ.mul_oneF x

theorem hzero_add (x : FloatQ) : FQ 0 + x = x := FloatQ.zero_addF x

theorem hadd_zero (x : FloatQ) : x + FQ 0 = x := FloatQ.add_zeroF x

theorem hsub_zero (x : FloatQ) : x - FQ 0 = x := by
  cases x <;> simp [HSub.hSub, Sub.sub, FloatQ.sub, FloatQ.add, FloatQ.neg, FQ]

theorem remap_zero (ss : FloatQ) : (ss - FQ 0) * FloatQ.rcp (FQ 1 - FQ 0) = ss := by
  rw [hsub_zero, hub1, rcp_one, hmul_one]

theorem isFinite_mulF {a b : FloatQ} (ha : a.isFinite = true) (hb : b.isFinite = true) :
    (a * b).isFinite = true := by
  cases a <;> cases b <;>
    simp_all [FloatQ.isFinite, HMul.hMul, Mul.mul, FloatQ.mul]

theorem rcp_fin_finite {q : ℚ} (hq : q ≠ 0) :
    (FloatQ.rcp (FloatQ.fin q)).isFinite = true := by
  simp [FloatQ.rcp, hq, FloatQ.isFinite]

theorem rcp4_finite {x : FloatQ} (h : FloatQ.ltb (FQ 0) x = true) :
    (FloatQ.rcp (FQ 4 * x)).isFinite = true := by
  cases x with
  | fin c =>
    have hc : 0 < c := by simpa [FloatQ.ltb, FQ] using h
    have h1 : FQ 4 * FloatQ.fin c = FloatQ.fin (4 * c) := rfl
    rw [h1]
    exact rcp_fin_finite (by positivity)
  | pinf =>
    have h1 : FQ 4 * FloatQ.pinf = FloatQ.pinf := by
      simp [HMul.hMul, Mul.mul, FloatQ.mul, FQ]
    rw [h1]
    rfl
  | ninf => simp [FloatQ.ltb, FQ] at h
  | nan => simp [FloatQ.ltb, FQ] at h

theorem hmul_fin_inv (x : FloatQ) {q : ℚ} (hq : q ≠ 0) :
    x * FloatQ.fin q * FloatQ.fin q⁻¹ = x :=
  FloatQ.mul_fin_mul_inv x hq

theorem smul_zeroV {v : Vec3} (h : v.allFinite = true) :
    v.smul (FQ 0) = Vec3.const (FQ 0) := by
  obtain ⟨a, b, c⟩ := v
  simp [Vec3.allFinite, Bool.and_eq_true] at h
  obtain ⟨⟨ha, hb⟩, hc⟩ := h
  simp [Vec3.smul, Vec3.const, hmul_zero, ha, hb, hc]

theorem smul_fin_inv (v : Vec3) {p : ℚ} (hp : p ≠ 0) :
    (v.smul (FloatQ.fin p)).smul (FloatQ.rcp (FloatQ.fin p)) = v := by
  obtain ⟨a, b, c⟩ := v
  rw [FloatQ.rcp_fin hp]
  simp only [Vec3.smul]
  rw [hmul_fin_inv a hp, hmul_fin_inv b hp, hmul_fin_inv c hp]

/-- C7: with blend weight `0` (and finite model parameters and table values,
as the data model requires, `wo` strictly above the horizon, `ss` nonnegative,
and the substrate's non-specular non-void samples carrying a nonzero finite
pdf), the sheen layering combinator's `eval` equals the substrate's `eval` at
every `wi`, and its `sample` equals the substrate's `sample` at the same
`(s, ss)` in every field. -/
theorem sheen_passthrough_weight_zero (env : MathEnv) (self : MicrofacetSheenLayer)
    (wo : Vec3) (s : Vec2) (ss : FloatQ)
    (hw0 : self.weight = FQ 0)
    (hO : FloatQ.ltb (FQ 0) (Vec3.dot wo self.frameN) = true)
    (hss0 : FloatQ.leb (FQ 0) ss = true)
    (htab : ∀ c r, (env.albedoE c r).isFinite = true)
    (huni : env.uniformPdf.isFinite = true)
    (hd : ∀ c, (self.microfacet.d c).isFinite = true)
    (hg : ∀ a b c d', (self.microfacet.g2 a b c d').isFinite = true)
    (hR : self.R.allFinite = true)
    (hsubS : (self.substrate.sample wo s ss).type &&& BSDF_SPECULAR = 0 →
      FloatQ.leb (self.substrate.sample wo s ss).weight.reduceMax (FQ 0) = false →
      ∃ p, (self.substrate.sample wo s ss).pdf = FloatQ.fin p ∧ p ≠ 0) :
    (∀ wi', MicrofacetSheenLayer_eval env self wo wi' = self.substrate.eval wo wi') ∧
    MicrofacetSheenLayer_sample env self wo s ss = self.substrate.sample wo s ss := by
  have hO' : FloatQ.leb (Vec3.dot wo self.frameN) (FQ 0) = false := FloatQ.leb_false_of_ltb hO
  have hRz : ∀ c, env.albedoE c self.roughness * self.weight = FQ 0 := fun c => by
    rw [hw0]; exact hmul_zero (htab _ _)
  have hRo := hRz (Vec3.dot wo self.frameN)
  constructor
  · intro wi'
    rcases Bool.eq_false_or_eq_true (FloatQ.ltb (FQ 0) (Vec3.dot wi' self.frameN)) with hI | hI
    · have hfin : (self.microfacet.d (Vec3.dot (env.normalizeV (Vec3.add wo wi')) self.frameN) *
          self.microfacet.g2 (Vec3.dot wo self.frameN) (Vec3.dot wi' self.frameN)
            (Vec3.dot wo (env.normalizeV (Vec3.add wo wi')))
            (Vec3.dot wi' (env.normalizeV (Vec3.add wo wi'))) *
          FloatQ.rcp (FQ 4 * Vec3.dot wo self.frameN)).isFinite = true :=
        isFinite_mulF (isFinite_mulF (hd _) (hg _ _ _ _)) (rcp4_finite hO)
      rw [sheenEval_above_aux env self wo wi' hO' hI, hRz, hRz, hw0, hub1, fmin_one_one,
        Vec3.smul_one, hzero_mul huni, hone_mul, hzero_add, hmul_zero hfin, smul_zeroV hR,
        Vec3.zero_addV]
    · rw [sheenEval_below_aux env self wo wi' hO' hI, hRz, hRz, hub1, fmin_one_one,
        Vec3.smul_one, hmul_one]
  · have hbranch : FloatQ.ltb ss
        (env.albedoE (Vec3.dot wo self.frameN) self.roughness * self.weight) = false := by
      rw [hRo]; exact FloatQ.ltb_false_of_leb hss0
    have hsub_eq : self.substrate.sample wo s
        ((ss - env.albedoE (Vec3.dot wo self.frameN) self.roughness * self.weight) *
          FloatQ.rcp (FQ 1 - env.albedoE (Vec3.dot wo self.frameN) self.roughness * self.weight)) =
        self.substrate.sample wo s ss := by
      rw [hRo, remap_zero]
    rcases Bool.eq_false_or_eq_true
        (FloatQ.leb (self.substrate.sample wo s ss).weight.reduceMax (FQ 0)) with hv | hv
    · -- the substrate reports a void sample: it is passed through
      have hv' : FloatQ.leb ((self.substrate.sample wo s
          ((ss - env.albedoE (Vec3.dot wo self.frameN) self.roughness * self.weight) *
            FloatQ.rcp (FQ 1 - env.albedoE (Vec3.dot wo self.frameN) self.roughness * self.weight))).weight.reduceMax)
          (FQ 0) = true := by
        rw [hsub_eq]; exact hv
      calc MicrofacetSheenLayer_sample env self wo s ss
          = self.substrate.sample wo s
              ((ss - env.albedoE (Vec3.dot wo self.frameN) self.roughness * self.weight) *
                FloatQ.rcp (FQ 1 - env.albedoE (Vec3.dot wo self.frameN) self.roughness * self.weight)) := by
            simp [MicrofacetSheenLayer_sample, hO', hbranch, hv']
        _ = self.substrate.sample wo s ss := hsub_eq
    · have hv' : FloatQ.leb ((self.substrate.sample wo s
          ((ss - env.albedoE (Vec3.dot wo self.frameN) self.roughness * self.weight) *
            FloatQ.rcp (FQ 1 - env.albedoE (Vec3.dot wo self.frameN) self.roughness * self.weight))).weight.reduceMax)
          (FQ 0) = false := by
        rw [hsub_eq]; exact hv
      have hres := sheenSample_substrate env self wo s ss hO' hbranch hv'
      rw [hsub_eq] at hres
      by_cases hns : (self.substrate.sample wo s ss).type &&& BSDF_SPECULAR = 0
      · obtain ⟨p, hp, hpne⟩ := hsubS hns hv
        rcases Bool.eq_false_or_eq_true
            (FloatQ.leb (Vec3.dot (self.substrate.sample wo s ss).wi self.frameN) (FQ 0)) with hcI | hcI
        · -- transmissive exit
          have htail := sampleTail_nonspec_trans env self wo (Vec3.dot wo self.frameN)
            (env.albedoE (Vec3.dot wo self.frameN) self.roughness * self.weight)
            (self.substrate.sample wo s ss)
            { value := (self.substrate.sample wo s ss).weight.smul
                (if (self.substrate.sample wo s ss).type &&& BSDF_SPECULAR ≠ 0 then FQ 1
                  else (self.substrate.sample wo s ss).pdf),
              pdf := (self.substrate.sample wo s ss).pdf }
            hns hcI
          rw [hres, htail]
          simp only [hRo, hRz, hub1, fmin_one_one, hone_mul, Vec3.smul_one, hns, ne_eq,
            not_true_eq_false, if_false]
          rw [hp, smul_fin_inv _ hpne, ← hp]
        · -- reflective continuous exit
          have htail := sampleTail_nonspec_refl env self wo (Vec3.dot wo self.frameN)
            (env.albedoE (Vec3.dot wo self.frameN) self.roughness * self.weight)
            (self.substrate.sample wo s ss)
            { value := (self.substrate.sample wo s ss).weight.smul
                (if (self.substrate.sample wo s ss).type &&& BSDF_SPECULAR ≠ 0 then FQ 1
                  else (self.substrate.sample wo s ss).pdf),
              pdf := (self.substrate.sample wo s ss).pdf }
            hns hcI
          have hfin : (self.microfacet.d (Vec3.dot (env.normalizeV
                (Vec3.add wo (self.substrate.sample wo s ss).wi)) self.frameN) *
              self.microfacet.g2 (Vec3.dot wo self.frameN)
                (Vec3.dot (self.substrate.sample wo s ss).wi self.frameN)
                (Vec3.dot wo (env.normalizeV (Vec3.add wo (self.substrate.sample wo s ss).wi)))
                (Vec3.dot (self.substrate.sample wo s ss).wi
                  (env.normalizeV (Vec3.add wo (self.substrate.sample wo s ss).wi))) *
              FloatQ.rcp (FQ 4 * Vec3.dot wo self.frameN)).isFinite = true :=
            isFinite_mulF (isFinite_mulF (hd _) (hg _ _ _ _)) (rcp4_finite hO)
          have hcoat : self.microfacet.d (Vec3.dot (env.normalizeV
                (Vec3.add wo (self.substrate.sample wo s ss).wi)) self.frameN) *
              self.microfacet.g2 (Vec3.dot wo self.frameN)
                (Vec3.dot (self.substrate.sample wo s ss).wi self.frameN)
                (Vec3.dot wo (env.normalizeV (Vec3.add wo (self.substrate.sample wo s ss).wi)))
                (Vec3.dot (self.substrate.sample wo s ss).wi
                  (env.normalizeV (Vec3.add wo (self.substrate.sample wo s ss).wi))) *
              FloatQ.rcp (FQ 4 * Vec3.dot wo self.frameN) * self.weight = FQ 0 := by
            rw [hw0]; exact hmul_zero hfin
          rw [hres, htail]
          simp only [hRo, hRz, hub1, fmin_one_one, hone_mul, Vec3.smul_one, hns, ne_eq,
            not_true_eq_false, if_false, hzero_mul huni, hzero_add, hcoat]
          rw [smul_zeroV hR, Vec3.zero_addV, hp, smul_fin_inv _ hpne, ← hp]
      · -- specular pass-through
        have htail := sampleTail_spec env self wo (Vec3.dot wo self.frameN)
          (env.albedoE (Vec3.dot wo self.frameN) self.roughness * self.weight)
          (self.substrate.sample wo s ss)
          { value := (self.substrate.sample wo s ss).weight.smul
              (if (self.substrate.sample wo s ss).type &&& BSDF_SPECULAR ≠ 0 then FQ 1
                else (self.substrate.sample wo s ss).pdf),
            pdf := (self.substrate.sample wo s ss).pdf }
          hns
        rw [hres, htail]
        simp only [hRo, hRz, hub1, fmin_one_one, rcp_one, Vec3.smul_one, hns, ne_eq,
          not_false_eq_true, if_true]

/-- C7 witness: with blend weight 0 at a concrete input, eval and sample both
equal the substrate's results. -/
theorem sheen_passthrough_weight_zero_witness :
    MicrofacetSheenLayer_eval envHalf sheenZeroWeight woUp wiDown =
      substrateTrans.eval woUp wiDown ∧
    MicrofacetSheenLayer_sample envHalf sheenZeroWeight woUp sW (FQ (1/2)) =
      substrateTrans.sample woUp sW (FQ (1/2)) := by
  have h := sheen_passthrough_weight_zero envHalf sheenZeroWeight woUp sW (FQ (1/2))
    rfl (by with_unfolding_all decide) (by with_unfolding_all decide)
    (fun _ _ => rfl) rfl (fun _ => rfl) (fun _ _ _ _ => rfl) rfl
    (fun _ _ => ⟨1/2, by with_unfolding_all rfl, by norm_num⟩)
  exact ⟨h.1 wiDown, h.2⟩

/-!
Helper lemmas for the pdf-zero invariant and finiteness claims.
-/

theorem fin_mul_fin (a b : ℚ) : FloatQ.fin a * FloatQ.fin b = FloatQ.fin (a * b) := rfl

theorem fin_add_fin (a b : ℚ) : FloatQ.fin a + FloatQ.fin b = FloatQ.fin (a + b) := rfl

theorem one_sub_fin (q : ℚ) : FQ 1 - FloatQ.fin q = FloatQ.fin (1 - q) := by
  simp [HSub.hSub, Sub.sub, FloatQ.sub, FloatQ.add, FloatQ.neg]
  exact (sub_eq_add_neg (1:ℚ) q).symm

theorem pos_of_leb_fin_zero_false {c : ℚ}
    (h : FloatQ.leb (FloatQ.fin c) (FQ 0) = false) : 0 < c := by
  simp [FloatQ.leb] at h
  exact h

theorem const_zero_smul_fin (m : ℚ) :
    (Vec3.const (FQ 0)).smul (FloatQ.fin m) = Vec3.const (FQ 0) := by
  simp [Vec3.const, Vec3.smul, fin_mul_fin]

theorem smul_fin_zeroV {v : Vec3} (h : v.allFinite = true) :
    v.smul (FloatQ.fin 0) = Vec3.const (FQ 0) := smul_zeroV h

theorem fmin_selfF (x : FloatQ) : FloatQ.fmin x x = x := by
  unfold FloatQ.fmin
  split <;> rfl

theorem fmin_fin_zero_right {b : ℚ} (hb : 0 ≤ b) :
    FloatQ.fmin (FloatQ.fin 0) (FloatQ.fin b) = FloatQ.fin 0 := by
  unfold FloatQ.fmin
  rw [if_neg]
  simp [FloatQ.ltb]
  linarith

/-- C6 counterexample: with an identically zero albedo table (within the
claimed `[0,1]` range), a substrate satisfying the invariant, and blend
weight 1, the sheen layer's `eval` returns pdf `0` with a nonzero value: the
claim's hypotheses are too weak. -/
theorem eval_pdf_zero_invariant_cex :
    (MicrofacetSheenLayer_eval envZeroTable sheenW woUp woUp).pdf = FQ 0 ∧
    (MicrofacetSheenLayer_eval envZeroTable sheenW woUp woUp).value ≠ Vec3.const (FQ 0) := by
  constructor
  · with_unfolding_all rfl
  · with_unfolding_all decide

/-- C6 (amended): `ThinDielectric_eval` always returns the zero sentinel, so
its invariant `pdf == 0 → value == 0` is trivial; the sheen layer's `eval`
satisfies the invariant provided the albedo table returns finite values in
`(0, 1]` (strictly positive, not merely `[0,1]`), the blend weight is a
finite value in `[0,1]`, the uniform-hemisphere pdf is finite positive, the
layer's parameters and the substrate's results are finite, the substrate pdf
is nonnegative, and the substrate's eval satisfies the same invariant. -/
theorem eval_pdf_zero_invariant (env : MathEnv) (selfS : MicrofacetSheenLayer)
    (selfT : ThinDielectric) (wo wi : Vec3)
    (htab : ∀ c r, ∃ q, env.albedoE c r = FloatQ.fin q ∧ 0 < q ∧ q ≤ 1)
    (hwq : ∃ qw, selfS.weight = FloatQ.fin qw ∧ 0 ≤ qw ∧ qw ≤ 1)
    (huni : ∃ u, env.uniformPdf = FloatQ.fin u ∧ 0 < u)
    (hwoN : ∃ c, Vec3.dot wo selfS.frameN = FloatQ.fin c)
    (hR : selfS.R.allFinite = true)
    (hd : ∀ c, ∃ q, selfS.microfacet.d c = FloatQ.fin q)
    (hg : ∀ a b c d', ∃ q, selfS.microfacet.g2 a b c d' = FloatQ.fin q)
    (hsubE : (∃ p, (selfS.substrate.eval wo wi).pdf = FloatQ.fin p ∧ 0 ≤ p) ∧
      ((selfS.substrate.eval wo wi).pdf = FQ 0 →
        (selfS.substrate.eval wo wi).value = Vec3.const (FQ 0)) ∧
      (selfS.substrate.eval wo wi).value.allFinite = true) :
    ThinDielectric_eval selfT wo wi = make_BSDF_EvalRes_zero ∧
    ((MicrofacetSheenLayer_eval env selfS wo wi).pdf = FQ 0 →
      (MicrofacetSheenLayer_eval env selfS wo wi).value = Vec3.const (FQ 0)) := by
  refine ⟨rfl, ?_⟩
  intro hpdf
  rcases Bool.eq_false_or_eq_true (FloatQ.leb (Vec3.dot wo selfS.frameN) (FQ 0)) with hO | hO
  · have hz : MicrofacetSheenLayer_eval env selfS wo wi = make_BSDF_EvalRes_zero := by
      simp [MicrofacetSheenLayer_eval, hO]
    rw [hz]
    rfl
  · obtain ⟨c, hc⟩ := hwoN
    have hcpos : 0 < c := pos_of_leb_fin_zero_false (hc ▸ hO)
    obtain ⟨e1, he1, he1pos, he1le⟩ := htab (Vec3.dot wo selfS.frameN) selfS.roughness
    obtain ⟨e2, he2, he2pos, he2le⟩ :=
      htab (FloatQ.fabs (Vec3.dot wi selfS.frameN)) selfS.roughness
    obtain ⟨qw, hqw, hqw0, hqw1⟩ := hwq
    obtain ⟨u, hu, hupos⟩ := huni
    obtain ⟨⟨p, hp, hppos⟩, hinv, hvfin⟩ := hsubE
    have hRo : env.albedoE (Vec3.dot wo selfS.frameN) selfS.roughness * selfS.weight =
        FloatQ.fin (e1 * qw) := by rw [he1, hqw]; rfl
    have hRi : env.albedoE (FloatQ.fabs (Vec3.dot wi selfS.frameN)) selfS.roughness *
        selfS.weight = FloatQ.fin (e2 * qw) := by rw [he2, hqw]; rfl
    rcases Bool.eq_false_or_eq_true (FloatQ.ltb (FQ 0) (Vec3.dot wi selfS.frameN)) with hI | hI
    · -- reflection branch
      rw [sheenEval_above_aux env selfS wo wi hO hI] at hpdf ⊢
      rw [hRo, hu, hp, one_sub_fin, fin_mul_fin, fin_mul_fin, fin_add_fin] at hpdf
      simp only [FQ, FloatQ.fin.injEq] at hpdf
      have he1qw : e1 * qw ≤ 1 := mul_le_one₀ he1le hqw0 hqw1
      have hterm1 : 0 ≤ e1 * qw * u := by positivity
      have hterm2 : 0 ≤ (1 - e1 * qw) * p := by
        have h1 : 0 ≤ 1 - e1 * qw := by linarith
        positivity
      have hz1 : e1 * qw * u = 0 := by linarith
      have hqwz : qw = 0 := by
        rcases mul_eq_zero.mp hz1 with h | h
        · rcases mul_eq_zero.mp h with h' | h'
          · exact absurd h' (ne_of_gt he1pos)
          · exact h'
        · exact absurd h (ne_of_gt hupos)
      have hpz : p = 0 := by
        have h2 : (1 - e1 * qw) * p = 0 := by linarith
        rcases mul_eq_zero.mp h2 with h | h
        · rw [hqwz] at h
          simp at h
        · exact h
      obtain ⟨dq, hdq⟩ := hd (Vec3.dot (env.normalizeV (Vec3.add wo wi)) selfS.frameN)
      obtain ⟨gq, hgq⟩ := hg (Vec3.dot wo selfS.frameN) (Vec3.dot wi selfS.frameN)
        (Vec3.dot wo (env.normalizeV (Vec3.add wo wi)))
        (Vec3.dot wi (env.normalizeV (Vec3.add wo wi)))
      have h4c : (4 : ℚ) * c ≠ 0 := by positivity
      have hcoat : selfS.microfacet.d (Vec3.dot (env.normalizeV (Vec3.add wo wi)) selfS.frameN) *
          selfS.microfacet.g2 (Vec3.dot wo selfS.frameN) (Vec3.dot wi selfS.frameN)
            (Vec3.dot wo (env.normalizeV (Vec3.add wo wi)))
            (Vec3.dot wi (env.normalizeV (Vec3.add wo wi))) *
          FloatQ.rcp (FQ 4 * Vec3.dot wo selfS.frameN) * selfS.weight = FloatQ.fin 0 := by
        rw [hdq, hgq, hc, hqw, hqwz, fin_mul_fin 4 c, FloatQ.rcp_fin h4c]
        simp [fin_mul_fin]
      have hsubz : (selfS.substrate.eval wo wi).value = Vec3.const (FQ 0) := by
        apply hinv
        rw [hp, hpz]
      rw [hcoat, smul_fin_zeroV hR, hsubz, hRo, hRi, hqwz]
      simp only [mul_zero]
      rw [one_sub_fin, fmin_selfF, const_zero_smul_fin]
      exact Vec3.zero_addV _
    · -- substrate transmission branch
      rw [sheenEval_below_aux env selfS wo wi hO hI] at hpdf ⊢
      rw [hp, hRo, one_sub_fin, fin_mul_fin] at hpdf
      simp only [FQ, FloatQ.fin.injEq] at hpdf
      rcases mul_eq_zero.mp hpdf with hpz | hroz
      · have hsubz : (selfS.substrate.eval wo wi).value = Vec3.const (FQ 0) := by
          apply hinv
          rw [hp, hpz]
        rw [hsubz, hRo, hRi, one_sub_fin, one_sub_fin]
        have hTfin : ∃ m, FloatQ.fmin (FloatQ.fin (1 - e1 * qw)) (FloatQ.fin (1 - e2 * qw)) =
            FloatQ.fin m := by
          unfold FloatQ.fmin
          split
          · exact ⟨1 - e2 * qw, rfl⟩
          · exact ⟨1 - e1 * qw, rfl⟩
        obtain ⟨m, hm⟩ := hTfin
        rw [hm, const_zero_smul_fin]
      · have h1 : (1 : ℚ) - e1 * qw = 0 := by linarith
        have h2 : (0 : ℚ) ≤ 1 - e2 * qw := by
          have h3 : e2 * qw ≤ 1 := mul_le_one₀ he2le hqw0 hqw1
          linarith
        rw [hRo, hRi, one_sub_fin, one_sub_fin, h1, fmin_fin_zero_right h2,
          smul_fin_zeroV hvfin]

/-- C6 (amended) witness at a concrete input satisfying all hypotheses. -/
theorem eval_pdf_zero_invariant_witness :
    ThinDielectric_eval tdW woUp woUp = make_BSDF_EvalRes_zero ∧
    ((MicrofacetSheenLayer_eval envHalf sheenW woUp woUp).pdf = FQ 0 →
      (MicrofacetSheenLayer_eval envHalf sheenW woUp woUp).value = Vec3.const (FQ 0)) :=
  eval_pdf_zero_invariant envHalf sheenW tdW woUp woUp
    (fun _ _ => ⟨1/2, rfl, by norm_num⟩)
    ⟨1, rfl, by norm_num⟩
    ⟨1, rfl, by norm_num⟩
    ⟨1, by with_unfolding_all rfl⟩
    rfl
    (fun _ => ⟨1, rfl⟩)
    (fun _ _ _ _ => ⟨1, rfl⟩)
    ⟨⟨0, rfl, le_refl 0⟩, fun _ => rfl, rfl⟩

theorem fmin_fin_shape (a b : ℚ) :
    ∃ m, FloatQ.fmin (FloatQ.fin a) (FloatQ.fin b) = FloatQ.fin m := by
  unfold FloatQ.fmin
  split
  · exact ⟨b, rfl⟩
  · exact ⟨a, rfl⟩

theorem leb_fin_zero_false_of_pos {c : ℚ} (h : 0 < c) :
    FloatQ.leb (FloatQ.fin c) (FQ 0) = false := by
  simp [FloatQ.leb]
  linarith

theorem le_of_ltb_fin_false {a b : ℚ}
    (h : FloatQ.ltb (FloatQ.fin a) (FloatQ.fin b) = false) : b ≤ a := by
  simp [FloatQ.ltb] at h
  exact h

/-- C5 counterexample: layering the sheen combinator over the (purely
specular) thin dielectric substrate, the specular pass-through keeps the
substrate's `+inf` delta pdf, so the returned pdf is not finite — the claim
that the returned weight and pdf are always finite is false. -/
theorem sheen_sample_finiteness_cex :
    (MicrofacetSheenLayer_sample envZeroTable sheenOverTD woUp sW (FQ 0)).pdf = FloatQ.pinf ∧
    (MicrofacetSheenLayer_sample envZeroTable sheenOverTD woUp sW (FQ 0)).pdf.isFinite = false := by
  constructor
  · with_unfolding_all rfl
  · with_unfolding_all rfl

theorem fin_sub_fin (a b : ℚ) : FloatQ.fin a - FloatQ.fin b = FloatQ.fin (a - b) := by
  simp [HSub.hSub, Sub.sub, FloatQ.sub, FloatQ.add, FloatQ.neg]
  exact (sub_eq_add_neg a b).symm

/-- C5 (amended): in the sheen layer's `sample`, the divisions by
`substratePickProb` are guarded only by the branch structure — they are
reached only when `ss >= coatPickProb`, which with `ss` in `[0,1)` and a
`[0,1]` table forces `substratePickProb > 0`.  Under the data model's
validity assumptions (finite table, blend weight in `[0,1]`, positive
uniform-hemisphere pdf, finite parameters and substrate results, positive
pdf for non-void non-specular substrate samples, coat samples strictly above
the horizon), the returned weight is finite, and the returned pdf is finite
whenever the sampled lobe is not specular (the specular pass-through keeps
the substrate's `+inf` delta pdf by design). -/
theorem sheen_sample_finiteness (env : MathEnv) (self : MicrofacetSheenLayer)
    (wo : Vec3) (s : Vec2) (ss : FloatQ)
    (hss0 : FloatQ.leb (FQ 0) ss = true)
    (hss1 : FloatQ.ltb ss (FQ 1) = true)
    (htab : ∀ c r, ∃ q, env.albedoE c r = FloatQ.fin q ∧ 0 ≤ q ∧ q ≤ 1)
    (hwq : ∃ qw, self.weight = FloatQ.fin qw ∧ 0 ≤ qw ∧ qw ≤ 1)
    (huni : ∃ u, env.uniformPdf = FloatQ.fin u ∧ 0 < u)
    (hwoN : ∃ c, Vec3.dot wo self.frameN = FloatQ.fin c)
    (hR : self.R.allFinite = true)
    (hd : ∀ c, ∃ q, self.microfacet.d c = FloatQ.fin q)
    (hg : ∀ a b c d', ∃ q, self.microfacet.g2 a b c d' = FloatQ.fin q)
    (hhemi : ∀ s', ∃ c, Vec3.dot (self.frameMul (env.sampleHemi s')) self.frameN =
      FloatQ.fin c ∧ 0 < c)
    (hsubE : ∀ w2, (self.substrate.eval wo w2).value.allFinite = true ∧
      ∃ p, (self.substrate.eval wo w2).pdf = FloatQ.fin p ∧ 0 ≤ p)
    (hsubS : ∀ s' t, (self.substrate.sample wo s' t).weight.allFinite = true ∧
      ((self.substrate.sample wo s' t).type &&& BSDF_SPECULAR = 0 →
        ∃ p, (self.substrate.sample wo s' t).pdf = FloatQ.fin p ∧ 0 ≤ p ∧
          (FloatQ.leb (self.substrate.sample wo s' t).weight.reduceMax (FQ 0) = false →
            0 < p))) :
    (MicrofacetSheenLayer_sample env self wo s ss).weight.allFinite = true ∧
    ((MicrofacetSheenLayer_sample env self wo s ss).type &&& BSDF_SPECULAR = 0 →
      ((MicrofacetSheenLayer_sample env self wo s ss).pdf).isFinite = true) := by
  obtain ⟨sq, hsq, hsq0, hsq1⟩ := FloatQ.shape_of_unit hss0 hss1
  rcases Bool.eq_false_or_eq_true (FloatQ.leb (Vec3.dot wo self.frameN) (FQ 0)) with hO | hO
  · rw [sheenSample_below_horizon env self wo s ss hO]
    exact ⟨by with_unfolding_all decide, fun _ => by with_unfolding_all decide⟩
  obtain ⟨c, hc⟩ := hwoN
  have hcpos : 0 < c := pos_of_leb_fin_zero_false (hc ▸ hO)
  have h4c : (4 : ℚ) * c ≠ 0 := by positivity
  obtain ⟨e1, he1, he10, he11⟩ := htab (Vec3.dot wo self.frameN) self.roughness
  obtain ⟨qw, hqw, hqw0, hqw1⟩ := hwq
  obtain ⟨u, hu, hupos⟩ := huni
  have hRo : env.albedoE (Vec3.dot wo self.frameN) self.roughness * self.weight =
      FloatQ.fin (e1 * qw) := by rw [he1, hqw]; rfl
  have hro0 : 0 ≤ e1 * qw := mul_nonneg he10 hqw0
  have hro1 : e1 * qw ≤ 1 := mul_le_one₀ he11 hqw0 hqw1
  rcases Bool.eq_false_or_eq_true
      (FloatQ.ltb ss (env.albedoE (Vec3.dot wo self.frameN) self.roughness * self.weight))
      with hpick | hpick
  · -- coat branch
    have hropos : 0 < e1 * qw := by
      rw [hsq, hRo] at hpick
      have := (FloatQ.ltb_fin_iff sq (e1 * qw)).mp hpick
      linarith
    obtain ⟨ci, hci, hcipos⟩ := hhemi s
    have hcIf : FloatQ.leb (Vec3.dot (self.frameMul (env.sampleHemi s)) self.frameN) (FQ 0) =
        false := by
      rw [hci]
      exact leb_fin_zero_false_of_pos hcipos
    have hres := sheenSample_coat env self wo s ss hO hpick
    have htail := sampleTail_nonspec_refl env self wo (Vec3.dot wo self.frameN)
      (env.albedoE (Vec3.dot wo self.frameN) self.roughness * self.weight)
      { wi := self.frameMul (env.sampleHemi s), type := BSDF_DIFFUSE_REFLECTION,
        weight := Vec3.const (FQ 0), pdf := FQ 0 }
      (self.substrate.eval wo (self.frameMul (env.sampleHemi s)))
      diffuse_not_specular hcIf
    have hfinal := hres.trans htail
    obtain ⟨hvfin, p, hp, hp0⟩ := hsubE (self.frameMul (env.sampleHemi s))
    obtain ⟨e2, he2, he20, he21⟩ := htab
      (FloatQ.fabs (Vec3.dot (self.frameMul (env.sampleHemi s)) self.frameN)) self.roughness
    have hRi : env.albedoE
        (FloatQ.fabs (Vec3.dot (self.frameMul (env.sampleHemi s)) self.frameN)) self.roughness *
        self.weight = FloatQ.fin (e2 * qw) := by rw [he2, hqw]; rfl
    have hPEq : env.albedoE (Vec3.dot wo self.frameN) self.roughness * self.weight *
        env.uniformPdf +
        (FQ 1 - env.albedoE (Vec3.dot wo self.frameN) self.roughness * self.weight) *
          (self.substrate.eval wo (self.frameMul (env.sampleHemi s))).pdf =
        FloatQ.fin (e1 * qw * u + (1 - e1 * qw) * p) := by
      rw [hRo, hu, hp, one_sub_fin]
      rfl
    have hSpos : 0 < e1 * qw * u + (1 - e1 * qw) * p := by
      have h1 : 0 < e1 * qw * u := by positivity
      have h2 : 0 ≤ (1 - e1 * qw) * p := by
        have : 0 ≤ 1 - e1 * qw := by linarith
        positivity
      linarith
    have hSne : e1 * qw * u + (1 - e1 * qw) * p ≠ 0 := ne_of_gt hSpos
    obtain ⟨dq, hdq⟩ := hd (Vec3.dot (env.normalizeV
      (Vec3.add wo (self.frameMul (env.sampleHemi s)))) self.frameN)
    obtain ⟨gq, hgq⟩ := hg (Vec3.dot wo self.frameN)
      (Vec3.dot (self.frameMul (env.sampleHemi s)) self.frameN)
      (Vec3.dot wo (env.normalizeV (Vec3.add wo (self.frameMul (env.sampleHemi s)))))
      (Vec3.dot (self.frameMul (env.sampleHemi s))
        (env.normalizeV (Vec3.add wo (self.frameMul (env.sampleHemi s)))))
    have hcoatEq : self.microfacet.d (Vec3.dot (env.normalizeV
          (Vec3.add wo (self.frameMul (env.sampleHemi s)))) self.frameN) *
        self.microfacet.g2 (Vec3.dot wo self.frameN)
          (Vec3.dot (self.frameMul (env.sampleHemi s)) self.frameN)
          (Vec3.dot wo (env.normalizeV (Vec3.add wo (self.frameMul (env.sampleHemi s)))))
          (Vec3.dot (self.frameMul (env.sampleHemi s))
            (env.normalizeV (Vec3.add wo (self.frameMul (env.sampleHemi s))))) *
        FloatQ.rcp (FQ 4 * Vec3.dot wo self.frameN) * self.weight =
        FloatQ.fin (dq * gq * (4 * c)⁻¹ * qw) := by
      rw [hdq, hgq, hc, hqw, fin_mul_fin 4 c, FloatQ.rcp_fin h4c]
      rfl
    have hcoatFin : (self.R.smul (FloatQ.fin (dq * gq * (4 * c)⁻¹ * qw))).allFinite = true :=
      Vec3.allFinite_smul_fin hR _
    obtain ⟨m, hm⟩ := fmin_fin_shape (1 - e1 * qw) (1 - e2 * qw)
    have hT : FloatQ.fmin
        (FQ 1 - env.albedoE (Vec3.dot wo self.frameN) self.roughness * self.weight)
        (FQ 1 - env.albedoE (FloatQ.fabs
          (Vec3.dot (self.frameMul (env.sampleHemi s)) self.frameN)) self.roughness *
          self.weight) = FloatQ.fin m := by
      rw [hRo, hRi, one_sub_fin, one_sub_fin]
      exact hm
    constructor
    · rw [hfinal]
      dsimp only
      rw [hcoatEq, hT, hPEq, FloatQ.rcp_fin hSne]
      exact Vec3.allFinite_smul_fin
        (Vec3.allFinite_add hcoatFin (Vec3.allFinite_smul_fin hvfin m)) _
    · intro _
      rw [hfinal]
      dsimp only
      rw [hPEq]
      rfl
  · -- substrate branch
    have hrole : e1 * qw ≤ sq := by
      rw [hsq, hRo] at hpick
      exact le_of_ltb_fin_false hpick
    have hspp : 0 < 1 - e1 * qw := by linarith
    have hsppne : (1 : ℚ) - e1 * qw ≠ 0 := ne_of_gt hspp
    have hsub1 : (ss - env.albedoE (Vec3.dot wo self.frameN) self.roughness * self.weight) *
        FloatQ.rcp (FQ 1 - env.albedoE (Vec3.dot wo self.frameN) self.roughness * self.weight) =
        FloatQ.fin ((sq - e1 * qw) * (1 - e1 * qw)⁻¹) := by
      rw [hsq, hRo, fin_sub_fin, one_sub_fin, FloatQ.rcp_fin hsppne, fin_mul_fin]
    obtain ⟨hwfin, hrpdf⟩ := hsubS s (FloatQ.fin ((sq - e1 * qw) * (1 - e1 * qw)⁻¹))
    rcases Bool.eq_false_or_eq_true
        (FloatQ.leb ((self.substrate.sample wo s
          (FloatQ.fin ((sq - e1 * qw) * (1 - e1 * qw)⁻¹))).weight.reduceMax) (FQ 0)) with hv | hv
    · -- void pass-through
      have hv0 : FloatQ.leb ((self.substrate.sample wo s
          ((ss - env.albedoE (Vec3.dot wo self.frameN) self.roughness * self.weight) *
            FloatQ.rcp (FQ 1 - env.albedoE (Vec3.dot wo self.frameN) self.roughness * self.weight))).weight.reduceMax)
          (FQ 0) = true := by
        rw [hsub1]
        exact hv
      have hres : MicrofacetSheenLayer_sample env self wo s ss =
          self.substrate.sample wo s
            ((ss - env.albedoE (Vec3.dot wo self.frameN) self.roughness * self.weight) *
              FloatQ.rcp (FQ 1 - env.albedoE (Vec3.dot wo self.frameN) self.roughness * self.weight)) := by
        simp [MicrofacetSheenLayer_sample, hO, hpick, hv0]
      rw [hres, hsub1]
      refine ⟨hwfin, fun ht => ?_⟩
      obtain ⟨p, hp, _, _⟩ := hrpdf ht
      rw [hp]
      rfl
    · have hv0 : FloatQ.leb ((self.substrate.sample wo s
          ((ss - env.albedoE (Vec3.dot wo self.frameN) self.roughness * self.weight) *
            FloatQ.rcp (FQ 1 - env.albedoE (Vec3.dot wo self.frameN) self.roughness * self.weight))).weight.reduceMax)
          (FQ 0) = false := by
        rw [hsub1]
        exact hv
      have hres := sheenSample_substrate env self wo s ss hO hpick hv0
      rw [hsub1] at hres
      by_cases hns : (self.substrate.sample wo s
          (FloatQ.fin ((sq - e1 * qw) * (1 - e1 * qw)⁻¹))).type &&& BSDF_SPECULAR = 0
      · obtain ⟨p, hp, hp0, hpposf⟩ := hrpdf hns
        have hppos : 0 < p := hpposf hv
        obtain ⟨e2, he2, he20, he21⟩ := htab (FloatQ.fabs (Vec3.dot (self.substrate.sample wo s
          (FloatQ.fin ((sq - e1 * qw) * (1 - e1 * qw)⁻¹))).wi self.frameN)) self.roughness
        have hRi : env.albedoE (FloatQ.fabs (Vec3.dot (self.substrate.sample wo s
            (FloatQ.fin ((sq - e1 * qw) * (1 - e1 * qw)⁻¹))).wi self.frameN)) self.roughness *
            self.weight = FloatQ.fin (e2 * qw) := by
          rw [he2, hqw]
          rfl
        obtain ⟨m, hm⟩ := fmin_fin_shape (1 - e1 * qw) (1 - e2 * qw)
        have hT : FloatQ.fmin
            (FQ 1 - env.albedoE (Vec3.dot wo self.frameN) self.roughness * self.weight)
            (FQ 1 - env.albedoE (FloatQ.fabs (Vec3.dot (self.substrate.sample wo s
              (FloatQ.fin ((sq - e1 * qw) * (1 - e1 * qw)⁻¹))).wi self.frameN)) self.roughness *
              self.weight) = FloatQ.fin m := by
          rw [hRi, hRo, one_sub_fin, one_sub_fin]
          exact hm
        rcases Bool.eq_false_or_eq_true
            (FloatQ.leb (Vec3.dot (self.substrate.sample wo s
              (FloatQ.fin ((sq - e1 * qw) * (1 - e1 * qw)⁻¹))).wi self.frameN) (FQ 0)) with hcI | hcI
        · -- transmissive exit
          have htail := sampleTail_nonspec_trans env self wo (Vec3.dot wo self.frameN)
            (env.albedoE (Vec3.dot wo self.frameN) self.roughness * self.weight)
            (self.substrate.sample wo s (FloatQ.fin ((sq - e1 * qw) * (1 - e1 * qw)⁻¹)))
            { value := (self.substrate.sample wo s
                  (FloatQ.fin ((sq - e1 * qw) * (1 - e1 * qw)⁻¹))).weight.smul
                (if (self.substrate.sample wo s
                    (FloatQ.fin ((sq - e1 * qw) * (1 - e1 * qw)⁻¹))).type &&&
                    BSDF_SPECULAR ≠ 0 then FQ 1
                  else (self.substrate.sample wo s
                    (FloatQ.fin ((sq - e1 * qw) * (1 - e1 * qw)⁻¹))).pdf),
              pdf := (self.substrate.sample wo s
                  (FloatQ.fin ((sq - e1 * qw) * (1 - e1 * qw)⁻¹))).pdf }
            hns hcI
          have hfinal := hres.trans htail
          have hP2 : (1 - e1 * qw) * p ≠ 0 := by positivity
          constructor
          · rw [hfinal]
            dsimp only
            rw [hT, hns]
            simp only [ne_eq, not_true_eq_false, if_false]
            rw [hp, hRo, one_sub_fin, fin_mul_fin, FloatQ.rcp_fin hP2]
            exact Vec3.allFinite_smul_fin
              (Vec3.allFinite_smul_fin (Vec3.allFinite_smul_fin hwfin p) m) _
          · intro _
            rw [hfinal]
            dsimp only
            rw [hp, hRo, one_sub_fin, fin_mul_fin]
            rfl
        · -- reflective continuous exit
          have htail := sampleTail_nonspec_refl env self wo (Vec3.dot wo self.frameN)
            (env.albedoE (Vec3.dot wo self.frameN) self.roughness * self.weight)
            (self.substrate.sample wo s (FloatQ.fin ((sq - e1 * qw) * (1 - e1 * qw)⁻¹)))
            { value := (self.substrate.sample wo s
                  (FloatQ.fin ((sq - e1 * qw) * (1 - e1 * qw)⁻¹))).weight.smul
                (if (self.substrate.sample wo s
                    (FloatQ.fin ((sq - e1 * qw) * (1 - e1 * qw)⁻¹))).type &&&
                    BSDF_SPECULAR ≠ 0 then FQ 1
                  else (self.substrate.sample wo s
                    (FloatQ.fin ((sq - e1 * qw) * (1 - e1 * qw)⁻¹))).pdf),
              pdf := (self.substrate.sample wo s
                  (FloatQ.fin ((sq - e1 * qw) * (1 - e1 * qw)⁻¹))).pdf }
            hns hcI
          have hfinal := hres.trans htail
          have hSpos : 0 < e1 * qw * u + (1 - e1 * qw) * p := by
            have h1 : 0 ≤ e1 * qw * u := by positivity
            have h2 : 0 < (1 - e1 * qw) * p := by positivity
            linarith
          have hSne : e1 * qw * u + (1 - e1 * qw) * p ≠ 0 := ne_of_gt hSpos
          obtain ⟨dq, hdq⟩ := hd (Vec3.dot (env.normalizeV (Vec3.add wo
            (self.substrate.sample wo s
              (FloatQ.fin ((sq - e1 * qw) * (1 - e1 * qw)⁻¹))).wi)) self.frameN)
          obtain ⟨gq, hgq⟩ := hg (Vec3.dot wo self.frameN)
            (Vec3.dot (self.substrate.sample wo s
              (FloatQ.fin ((sq - e1 * qw) * (1 - e1 * qw)⁻¹))).wi self.frameN)
            (Vec3.dot wo (env.normalizeV (Vec3.add wo
              (self.substrate.sample wo s
                (FloatQ.fin ((sq - e1 * qw) * (1 - e1 * qw)⁻¹))).wi)))
            (Vec3.dot (self.substrate.sample wo s
              (FloatQ.fin ((sq - e1 * qw) * (1 - e1 * qw)⁻¹))).wi
              (env.normalizeV (Vec3.add wo
                (self.substrate.sample wo s
                  (FloatQ.fin ((sq - e1 * qw) * (1 - e1 * qw)⁻¹))).wi)))
          have hcoatEq : self.microfacet.d (Vec3.dot (env.normalizeV (Vec3.add wo
                (self.substrate.sample wo s
                  (FloatQ.fin ((sq - e1 * qw) * (1 - e1 * qw)⁻¹))).wi)) self.frameN) *
              self.microfacet.g2 (Vec3.dot wo self.frameN)
                (Vec3.dot (self.substrate.sample wo s
                  (FloatQ.fin ((sq - e1 * qw) * (1 - e1 * qw)⁻¹))).wi self.frameN)
                (Vec3.dot wo (env.normalizeV (Vec3.add wo
                  (self.substrate.sample wo s
                    (FloatQ.fin ((sq - e1 * qw) * (1 - e1 * qw)⁻¹))).wi)))
                (Vec3.dot (self.substrate.sample wo s
                  (FloatQ.fin ((sq - e1 * qw) * (1 - e1 * qw)⁻¹))).wi
                  (env.normalizeV (Vec3.add wo
                    (self.substrate.sample wo s
                      (FloatQ.fin ((sq - e1 * qw) * (1 - e1 * qw)⁻¹))).wi))) *
              FloatQ.rcp (FQ 4 * Vec3.dot wo self.frameN) * self.weight =
              FloatQ.fin (dq * gq * (4 * c)⁻¹ * qw) := by
            rw [hdq, hgq, hc, hqw, fin_mul_fin 4 c, FloatQ.rcp_fin h4c]
            rfl
          constructor
          · rw [hfinal]
            dsimp only
            rw [hcoatEq, hT, hns]
            simp only [ne_eq, not_true_eq_false, if_false]
            rw [hp, hRo, hu, one_sub_fin, fin_mul_fin, fin_mul_fin, fin_add_fin,
              FloatQ.rcp_fin hSne]
            exact Vec3.allFinite_smul_fin
              (Vec3.allFinite_add (Vec3.allFinite_smul_fin hR _)
                (Vec3.allFinite_smul_fin (Vec3.allFinite_smul_fin hwfin p) m)) _
          · intro _
            rw [hfinal]
            dsimp only
            rw [hp, hRo, hu, one_sub_fin, fin_mul_fin, fin_mul_fin, fin_add_fin]
            rfl
      · -- specular pass-through: weight stays finite; the pdf is the
        -- substrate's delta pdf and is excluded by the non-specular guard
        have htail := sampleTail_spec env self wo (Vec3.dot wo self.frameN)
          (env.albedoE (Vec3.dot wo self.frameN) self.roughness * self.weight)
          (self.substrate.sample wo s (FloatQ.fin ((sq - e1 * qw) * (1 - e1 * qw)⁻¹)))
          { value := (self.substrate.sample wo s
                (FloatQ.fin ((sq - e1 * qw) * (1 - e1 * qw)⁻¹))).weight.smul
              (if (self.substrate.sample wo s
                  (FloatQ.fin ((sq - e1 * qw) * (1 - e1 * qw)⁻¹))).type &&&
                  BSDF_SPECULAR ≠ 0 then FQ 1
                else (self.substrate.sample wo s
                  (FloatQ.fin ((sq - e1 * qw) * (1 - e1 * qw)⁻¹))).pdf),
            pdf := (self.substrate.sample wo s
                (FloatQ.fin ((sq - e1 * qw) * (1 - e1 * qw)⁻¹))).pdf }
          hns
        have hfinal := hres.trans htail
        obtain ⟨e2, he2, he20, he21⟩ := htab (FloatQ.fabs (Vec3.dot (self.substrate.sample wo s
          (FloatQ.fin ((sq - e1 * qw) * (1 - e1 * qw)⁻¹))).wi self.frameN)) self.roughness
        have hRi : env.albedoE (FloatQ.fabs (Vec3.dot (self.substrate.sample wo s
            (FloatQ.fin ((sq - e1 * qw) * (1 - e1 * qw)⁻¹))).wi self.frameN)) self.roughness *
            self.weight = FloatQ.fin (e2 * qw) := by
          rw [he2, hqw]
          rfl
        obtain ⟨m, hm⟩ := fmin_fin_shape (1 - e1 * qw) (1 - e2 * qw)
        have hT : FloatQ.fmin
            (FQ 1 - env.albedoE (Vec3.dot wo self.frameN) self.roughness * self.weight)
            (FQ 1 - env.albedoE (FloatQ.fabs (Vec3.dot (self.substrate.sample wo s
              (FloatQ.fin ((sq - e1 * qw) * (1 - e1 * qw)⁻¹))).wi self.frameN)) self.roughness *
              self.weight) = FloatQ.fin m := by
          rw [hRi, hRo, one_sub_fin, one_sub_fin]
          exact hm
        constructor
        · rw [hfinal]
          dsimp only
          rw [hT, hRo, one_sub_fin, FloatQ.rcp_fin hsppne]
          simp only [hns, ne_eq, not_false_eq_true, if_true]
          exact Vec3.allFinite_smul_fin
            (Vec3.allFinite_smul_fin (Vec3.allFinite_smul_fin hwfin 1) m) _
        · intro ht
          rw [hfinal] at ht
          exact absurd ht hns

/-- C5 (amended) witness at a concrete input satisfying all hypotheses. -/
theorem sheen_sample_finiteness_witness :
    (MicrofacetSheenLayer_sample envHalf sheenW woUp sW (FQ (1/4))).weight.allFinite = true ∧
    ((MicrofacetSheenLayer_sample envHalf sheenW woUp sW (FQ (1/4))).type &&& BSDF_SPECULAR = 0 →
      ((MicrofacetSheenLayer_sample envHalf sheenW woUp sW (FQ (1/4))).pdf).isFinite = true) :=
  sheen_sample_finiteness envHalf sheenW woUp sW (FQ (1/4))
    (by with_unfolding_all decide) (by with_unfolding_all decide)
    (fun _ _ => ⟨1/2, rfl, by norm_num, by norm_num⟩)
    ⟨1, rfl, by norm_num, by norm_num⟩
    ⟨1, rfl, by norm_num⟩
    ⟨1, by with_unfolding_all rfl⟩
    rfl
    (fun _ => ⟨1, rfl⟩)
    (fun _ _ _ _ => ⟨1, rfl⟩)
    (fun _ => ⟨1, by with_unfolding_all rfl, by norm_num⟩)
    (fun _ => ⟨rfl, 0, rfl, le_refl 0⟩)
    (fun _ _ => ⟨rfl, fun _ => ⟨0, rfl, le_refl 0, fun hb => absurd hb (by
      show ¬(make_BSDF_SampleRes_zero.weight.reduceMax.leb (FQ 0) = false)
      with_unfolding_all decide)⟩⟩)
